import Mathlib

/-!
# Request lifecycle controller (`cardian::network::requestHandler`)

A shallow embedding of `src/cardian/requesthandler.h`.  The controller is a
record of its five data members; every member function is a function on that
record.  Signals are collected in emission order, each together with the values
of the two readable properties (`status`, `processing`) at the moment of the
`emit`, which is what a directly connected observer reads.

The Qt transport (`QNetworkAccessManager`, `QNetworkReply`, `QNetworkRequest`)
is not part of the source file; the small model below keeps what the source
relies on: an operation handle can be asked whether it is running, hands out
the bytes that are currently readable, and can be aborted.  Aborting a running
reply closes it and makes it emit `errorOccurred(OperationCanceledError)` and
`finished()`; the connections made by `getRequest` and `postRequest` run the
slots of the controller at once, inside the call.  A dereference of the reply
pointer before it was ever assigned is the `Fault.nullReply` branch.
-/

namespace cardian.network

/-! ## Transport model -/

abbrev QUrl := String

abbrev QByteArray := List UInt8

/-- Text of a header name or header value; `none` at a use site is a null byte array. -/
abbrev HeaderText := String

/-- The map type `QVariantMap`, entries listed in iteration (key) order. -/
abbrev QVariantMap := List (String × HeaderText)

/-- Known headers of `QNetworkRequest::KnownHeaders` used by the source. -/
inductive KnownHeaders where
  | ContentTypeHeader
  deriving DecidableEq

/-- Raw header name of a known header. -/
def KnownHeaders.rawName : KnownHeaders → HeaderText
  | .ContentTypeHeader => "Content-Type"

/-- Header names are compared without regard to letter case. -/
def sameHeaderName (a b : HeaderText) : Bool :=
  a.data.map Char.toLower == b.data.map Char.toLower

/-- Request descriptor handed to the transport. -/
structure QNetworkRequest where
  url : QUrl
  transferTimeout : Nat
  rawHeaders : List (HeaderText × HeaderText)
  deriving DecidableEq

/-- Constructor `QNetworkRequest req(url)`: no timeout, no headers. -/
def QNetworkRequest.new (url : QUrl) : QNetworkRequest :=
  { url := url, transferTimeout := 0, rawHeaders := [] }

/-- Member `setTransferTimeout(ms)`. -/
def QNetworkRequest.setTransferTimeout (req : QNetworkRequest) (ms : Nat) : QNetworkRequest :=
  { req with transferTimeout := ms }

/-- Member `setRawHeader(name, value)`: every header of that name is erased; a
non-null value is then stored under the name. -/
def QNetworkRequest.setRawHeader (req : QNetworkRequest) (headerName : HeaderText)
    (headerValue : Option HeaderText) : QNetworkRequest :=
  let kept := req.rawHeaders.filter (fun h => !sameHeaderName h.1 headerName)
  match headerValue with
  | none => { req with rawHeaders := kept }
  | some v => { req with rawHeaders := kept ++ [(headerName, v)] }

/-- Member `setHeader(known, value)`: stores the value under the raw name of the known header. -/
def QNetworkRequest.setHeader (req : QNetworkRequest) (header : KnownHeaders)
    (value : HeaderText) : QNetworkRequest :=
  req.setRawHeader header.rawName (some value)

/-- Member `rawHeader(name)`: the value stored under the name, if any. -/
def QNetworkRequest.rawHeader (req : QNetworkRequest) (headerName : HeaderText) :
    Option HeaderText :=
  (req.rawHeaders.find? (fun h => sameHeaderName h.1 headerName)).map Prod.snd

/-- Verb of an operation, with the payload of a POST. -/
inductive Operation where
  | GetOperation
  | PostOperation (body : QByteArray)
  deriving DecidableEq

/-- The object a `QNetworkReply *` points to. -/
structure QNetworkReply where
  id : Nat
  operation : Operation
  request : QNetworkRequest
  running : Bool
  unread : QByteArray
  deriving DecidableEq

/-- Member `isRunning()`. -/
def QNetworkReply.isRunning (r : QNetworkReply) : Bool := r.running

/-- Member `readAll()`: hands out every readable byte and leaves none. -/
def QNetworkReply.readAll (r : QNetworkReply) : QByteArray × QNetworkReply :=
  (r.unread, { r with unread := [] })

/-- Signals of a reply object. -/
inductive ReplySignal where
  | readyRead
  | finished
  | errorOccurred (error : Int)
  deriving DecidableEq

/-- Enumerator `QNetworkReply::OperationCanceledError`. -/
def OperationCanceledError : Int := 5

/-- Member `abort()` of the reply, with the signals it emits while it runs.  A
reply that no longer runs is left alone and emits nothing.  A running reply is
closed, so that nothing stays readable, stops running, and emits
`errorOccurred(OperationCanceledError)` followed by `finished()`. -/
def QNetworkReply.abort (r : QNetworkReply) : QNetworkReply × List ReplySignal :=
  if r.running then
    ({ r with running := false, unread := [] },
     [.errorOccurred OperationCanceledError, .finished])
  else (r, [])

/-- The transport `QNetworkAccessManager`; `started` counts the operations
issued so far and names the next handle. -/
structure QNetworkAccessManager where
  autoDeleteReplies : Bool
  started : Nat
  deriving DecidableEq

/-- Member `setAutoDeleteReplies(flag)`. -/
def QNetworkAccessManager.setAutoDeleteReplies (m : QNetworkAccessManager) (flag : Bool) :
    QNetworkAccessManager :=
  { m with autoDeleteReplies := flag }

/-- Start of an operation: a new running handle with nothing to read yet. -/
def QNetworkAccessManager.start (m : QNetworkAccessManager) (op : Operation)
    (req : QNetworkRequest) : QNetworkReply × QNetworkAccessManager :=
  ({ id := m.started, operation := op, request := req, running := true, unread := [] },
   { m with started := m.started + 1 })

/-- Member `get(request)`. -/
def QNetworkAccessManager.get (m : QNetworkAccessManager) (req : QNetworkRequest) :
    QNetworkReply × QNetworkAccessManager :=
  m.start .GetOperation req

/-- Member `post(request, body)`. -/
def QNetworkAccessManager.post (m : QNetworkAccessManager) (req : QNetworkRequest)
    (body : QByteArray) : QNetworkReply × QNetworkAccessManager :=
  m.start (.PostOperation body) req

/-- Member `value(key)` / const `operator[]` of the map: the stored value, or a
null value when the key is absent. -/
def QVariantMap.value (m : QVariantMap) (key : String) : Option HeaderText :=
  List.lookup key m

/-! ## The controller -/

/-- The enum `requestHandler::Status`. -/
inductive Status where
  | Error
  | None
  | Pending
  | Processing
  | Completed
  deriving DecidableEq

/-- Enumerator values: `Error = -1`, then `None = 0` upwards. -/
def Status.toInt : Status → Int
  | .Error => -1
  | .None => 0
  | .Pending => 1
  | .Processing => 2
  | .Completed => 3

/-- The signals of the class. -/
inductive Signal where
  | processingChanged
  | statusChanged
  | errorOccurred (errorMessage : String)
  | finished (response : QByteArray)
  | aborted
  deriving DecidableEq

/-- One `emit`: the signal and what `status()` and `processing()` return at that moment. -/
structure Emission where
  signal : Signal
  status : Status
  processing : Bool
  deriving DecidableEq

/-- Data members of `requestHandler`. -/
structure requestHandler where
  mNetworkManager : QNetworkAccessManager
  mReply : Option QNetworkReply
  mBuffer : QByteArray
  mProcessing : Bool
  mStatus : Status
  deriving DecidableEq

/-- Failure of a member function. -/
inductive Fault where
  | nullReply
  deriving DecidableEq

/-- Result of a member function that returned. -/
structure Outcome (α : Type) where
  ret : α
  state : requestHandler
  emitted : List Emission

/-- Constructor: `mProcessing(false)`, `mStatus(Status::None)`, auto-deletion of
replies switched on; the reply pointer is not assigned. -/
def requestHandler.new : requestHandler :=
  { mNetworkManager :=
      QNetworkAccessManager.setAutoDeleteReplies { autoDeleteReplies := false, started := 0 } true
    mReply := none
    mBuffer := []
    mProcessing := false
    mStatus := .None }

namespace requestHandler

/-- Getter `processing()`. -/
def processing (self : requestHandler) : Bool := self.mProcessing

/-- Getter `status()`. -/
def status (self : requestHandler) : Status := self.mStatus

/-- Record of an `emit` made in state `self`. -/
def emit (self : requestHandler) (sig : Signal) : Emission :=
  { signal := sig, status := self.status, processing := self.processing }

/-- Member `setProcessing`. -/
def setProcessing (self : requestHandler) (processing : Bool) : Outcome Unit :=
  if self.mProcessing = processing then ⟨(), self, []⟩
  else
    let s1 := { self with mProcessing := processing }
    ⟨(), s1, [s1.emit .processingChanged]⟩

/-- Member `setStatus`. -/
def setStatus (self : requestHandler) (newStatus : Status) : Outcome Unit :=
  if self.mStatus = newStatus then ⟨(), self, []⟩
  else
    let s1 := { self with mStatus := newStatus }
    let e1 := s1.emit .statusChanged
    let o2 := s1.setProcessing (newStatus == .Pending || newStatus == .Processing)
    ⟨(), o2.state, e1 :: o2.emitted⟩

/-- Member `getRequest`.  The three `connect` calls are not state: the transport
delivers its events by calling the slots. -/
def getRequest (self : requestHandler) (url : QUrl) : Except Fault (Outcome Bool) :=
  match self.mReply with
  | none => .error .nullReply
  | some reply =>
    if reply.isRunning then .ok ⟨false, self, []⟩
    else
      let req := (QNetworkRequest.new url).setTransferTimeout 3000
      let s1 := { self with mBuffer := [] }
      let o1 := s1.setStatus .None
      let req := req.setHeader .ContentTypeHeader "application/json"
      let started := o1.state.mNetworkManager.get req
      let s2 := { o1.state with mReply := some started.1, mNetworkManager := started.2 }
      let o2 := s2.setStatus .Pending
      .ok ⟨true, o2.state, o1.emitted ++ o2.emitted⟩

/-- The loop over `extraHeads` in `postRequest`: the range-for visits the stored
values of the map; each visited value `head` is used as the header name and
`extraHeads[head]` as the header value. -/
def applyExtraHeads (extraHeads : QVariantMap) (req : QNetworkRequest) : QNetworkRequest :=
  (extraHeads.map Prod.snd).foldl
    (fun r head => r.setRawHeader head (extraHeads.value head)) req

/-- Member `postRequest`. -/
def postRequest (self : requestHandler) (url : QUrl) (body : QByteArray)
    (extraHeads : QVariantMap) : Except Fault (Outcome Bool) :=
  match self.mReply with
  | none => .error .nullReply
  | some reply =>
    if reply.isRunning then .ok ⟨false, self, []⟩
    else
      let req := (QNetworkRequest.new url).setTransferTimeout 3000
      let s1 := { self with mBuffer := [] }
      let o1 := s1.setStatus .None
      let req := req.setHeader .ContentTypeHeader "application/json"
      let req := applyExtraHeads extraHeads req
      let started := o1.state.mNetworkManager.post req body
      let s2 := { o1.state with mReply := some started.1, mNetworkManager := started.2 }
      let o2 := s2.setStatus .Pending
      .ok ⟨true, o2.state, o1.emitted ++ o2.emitted⟩

/-- Slot `onReadyRead`. -/
def onReadyRead (self : requestHandler) : Except Fault (Outcome Unit) :=
  match self.mReply with
  | none => .error .nullReply
  | some reply =>
    let read := reply.readAll
    let s1 := { self with mBuffer := self.mBuffer ++ read.1, mReply := some read.2 }
    .ok (s1.setStatus .Processing)

/-- Slot `onFinished`. -/
def onFinished (self : requestHandler) : Except Fault (Outcome Unit) :=
  match self.mReply with
  | none => .error .nullReply
  | some reply =>
    let read := reply.readAll
    let s1 := { self with mBuffer := self.mBuffer ++ read.1, mReply := some read.2 }
    let o1 := s1.setStatus .Completed
    .ok ⟨(), o1.state, o1.emitted ++ [o1.state.emit (.finished o1.state.mBuffer)]⟩

/-- Text of `QString("Network Error (Code: %1)").arg(error)`. -/
def errorMessage (error : Int) : String :=
  "Network Error (Code: " ++ toString error ++ ")"

/-- Slot `onErrorOccurred`. -/
def onErrorOccurred (self : requestHandler) (error : Int) : Outcome Unit :=
  let o1 := self.setStatus .Error
  ⟨(), o1.state, o1.emitted ++ [o1.state.emit (.errorOccurred (errorMessage error))]⟩

/-- The three `connect` calls of `getRequest` and `postRequest`: a signal of the
reply the controller points to runs the slot connected to it, at once. -/
def deliver (self : requestHandler) : ReplySignal → Except Fault (Outcome Unit)
  | .readyRead => self.onReadyRead
  | .finished => self.onFinished
  | .errorOccurred error => .ok (self.onErrorOccurred error)

/-- Delivery of the signals a reply emits during one call, in order. -/
def deliverAll (self : requestHandler) : List ReplySignal → Except Fault (Outcome Unit)
  | [] => .ok ⟨(), self, []⟩
  | sig :: sigs =>
    match self.deliver sig with
    | .error f => .error f
    | .ok o1 =>
      match deliverAll o1.state sigs with
      | .error f => .error f
      | .ok o2 => .ok ⟨(), o2.state, o1.emitted ++ o2.emitted⟩

/-- Slot `abort`: `mReply->abort()` with the slots it runs through the
connections, then `emit aborted()`, then `setStatus(Status::None)`. -/
def abort (self : requestHandler) : Except Fault (Outcome Unit) :=
  match self.mReply with
  | none => .error .nullReply
  | some reply =>
    let cancelled := reply.abort
    let s1 := { self with mReply := some cancelled.1 }
    match s1.deliverAll cancelled.2 with
    | .error f => .error f
    | .ok o1 =>
      let e1 := o1.state.emit .aborted
      let o2 := o1.state.setStatus .None
      .ok ⟨(), o2.state, o1.emitted ++ e1 :: o2.emitted⟩

/-- Slot `resetStatus`. -/
def resetStatus (self : requestHandler) : Outcome Unit :=
  self.setStatus .None

end requestHandler

/-! ## Event sequences -/

/-- One thing that happens to a controller: a call of one of its member
functions, or a change the transport makes to the reply object the controller
points to (bytes become readable, the operation stops running). -/
inductive Event where
  | getRequest (url : QUrl)
  | postRequest (url : QUrl) (body : QByteArray) (extraHeads : QVariantMap)
  | onReadyRead
  | onFinished
  | onErrorOccurred (error : Int)
  | abort
  | resetStatus
  | transportData (bytes : QByteArray)
  | transportDone

/-- Return value of a call, forgotten or kept as an optional boolean. -/
def Outcome.withRet {α β : Type} (o : Outcome α) (b : β) : Outcome β :=
  { ret := b, state := o.state, emitted := o.emitted }

namespace requestHandler

/-- Bytes arrive on the reply the controller points to. -/
def transportData (self : requestHandler) (bytes : QByteArray) : requestHandler :=
  { self with mReply := self.mReply.map (fun r => { r with unread := r.unread ++ bytes }) }

/-- The reply the controller points to stops running. -/
def transportDone (self : requestHandler) : requestHandler :=
  { self with mReply := self.mReply.map (fun r => { r with running := false }) }

/-- Effect of one event. -/
def step (self : requestHandler) : Event → Except Fault (Outcome (Option Bool))
  | .getRequest url =>
    match self.getRequest url with
    | .error f => .error f
    | .ok o => .ok (o.withRet (some o.ret))
  | .postRequest url body extraHeads =>
    match self.postRequest url body extraHeads with
    | .error f => .error f
    | .ok o => .ok (o.withRet (some o.ret))
  | .onReadyRead =>
    match self.onReadyRead with
    | .error f => .error f
    | .ok o => .ok (o.withRet none)
  | .onFinished =>
    match self.onFinished with
    | .error f => .error f
    | .ok o => .ok (o.withRet none)
  | .onErrorOccurred error => .ok ((self.onErrorOccurred error).withRet none)
  | .abort =>
    match self.abort with
    | .error f => .error f
    | .ok o => .ok (o.withRet none)
  | .resetStatus => .ok (self.resetStatus.withRet none)
  | .transportData bytes => .ok ⟨none, transportData self bytes, []⟩
  | .transportDone => .ok ⟨none, transportDone self, []⟩

/-- Effect of a sequence of events: the final state and everything emitted, or
the fault of the first event that does not return. -/
def run (self : requestHandler) : List Event → Except Fault (requestHandler × List Emission)
  | [] => .ok (self, [])
  | e :: es =>
    match step self e with
    | .error f => .error f
    | .ok o =>
      match run o.state es with
      | .error f => .error f
      | .ok (s, em) => .ok (s, o.emitted ++ em)

/-- States seen after each event of a sequence that returned, in order. -/
def observe (self : requestHandler) : List Event → List requestHandler
  | [] => []
  | e :: es =>
    match step self e with
    | .error _ => []
    | .ok o => o.state :: observe o.state es

/-- The query "is a request currently active": the reply pointer is assigned and
the reply reports running. -/
def hasRunningReply (s : requestHandler) : Bool :=
  match s.mReply with
  | none => false
  | some r => r.isRunning

/-- The busy flag agrees with the status. -/
def busyMatchesStatus (s : requestHandler) : Prop :=
  s.processing = true ↔ (s.status = .Pending ∨ s.status = .Processing)

instance (s : requestHandler) : Decidable (busyMatchesStatus s) :=
  inferInstanceAs (Decidable (s.processing = true ↔ (s.status = .Pending ∨ s.status = .Processing)))

/-! ## Reading the emitted notifications -/

/-- Event sequence of data arriving in chunks: for every chunk the transport
makes its bytes readable and the slot `onReadyRead` runs. -/
def dataEvents : List QByteArray → List Event
  | [] => []
  | c :: cs => .transportData c :: .onReadyRead :: dataEvents cs

/-- Recogniser of the `finished` signal. -/
def isFinished : Signal → Bool
  | .finished _ => true
  | _ => false

/-- The `finished` notifications among the emitted signals, in order. -/
def finishedAmong (em : List Emission) : List Signal :=
  (em.map Emission.signal).filter isFinished

/-- Signals of an outcome, in emission order. -/
def signals {α : Type} (o : Outcome α) : List Signal :=
  o.emitted.map Emission.signal

/-- Recogniser of the `errorOccurred` signal. -/
def isErrorOccurred : Signal → Bool
  | .errorOccurred _ => true
  | _ => false

/-- Recogniser of the `aborted` signal. -/
def isAborted : Signal → Bool
  | .aborted => true
  | _ => false

/-- Status values an observer reads at the `statusChanged` notifications, in order. -/
def statusSeen (em : List Emission) : List Status :=
  (em.filter (fun e => e.signal == Signal.statusChanged)).map Emission.status

end requestHandler

open requestHandler

/-! ## Concrete controller states -/

/-- Request descriptor `getRequest(url)` builds. -/
def getDescriptor (url : QUrl) : QNetworkRequest :=
  ((QNetworkRequest.new url).setTransferTimeout 3000).setHeader .ContentTypeHeader
    "application/json"

/-- A controller as it stands after an earlier request has run to completion:
the reply pointer is assigned and the operation no longer runs. -/
def idleAfterRequest : requestHandler :=
  { mNetworkManager := { autoDeleteReplies := true, started := 1 }
    mReply := some { id := 0, operation := .GetOperation,
                     request := getDescriptor "https://api.example.com/first",
                     running := false, unread := [] }
    mBuffer := [1, 2, 3]
    mProcessing := false
    mStatus := .Completed }

/-- State with status `Pending` and a running reply, as left by an accepted `getRequest`. -/
def pendingRequest : requestHandler :=
  { mNetworkManager := { autoDeleteReplies := true, started := 2 }
    mReply := some { id := 1, operation := .GetOperation,
                     request := { url := "https://api.example.com/data", transferTimeout := 3000,
                                  rawHeaders := [("Content-Type", "application/json")] },
                     running := true, unread := [] }
    mBuffer := []
    mProcessing := true
    mStatus := .Pending }

/-- Outcome of the accepted `getRequest` that turns `idleAfterRequest` into `pendingRequest`. -/
def startedFromIdle : Outcome (Option Bool) :=
  { ret := some true
    state := pendingRequest
    emitted := [⟨.statusChanged, .None, false⟩, ⟨.statusChanged, .Pending, false⟩,
                ⟨.processingChanged, .Pending, true⟩] }

/-- Controller constructed with the reply pointer of `idleAfterRequest`, after an
accepted `getRequest`, one data event of five bytes and `onFinished`. -/
def servedFromFresh : requestHandler :=
  { mNetworkManager := { autoDeleteReplies := true, started := 1 }
    mReply := some { id := 0, operation := .GetOperation,
                     request := { url := "https://api.example.com/data", transferTimeout := 3000,
                                  rawHeaders := [("Content-Type", "application/json")] },
                     running := true, unread := [] }
    mBuffer := [104, 101, 108, 108, 111]
    mProcessing := false
    mStatus := .Completed }

/-- Controller whose status is `Processing` although its operation was cancelled:
reached from `idleAfterRequest` by `getRequest`, `abort` and a direct call of the
public slot `onReadyRead`. -/
def staleProcessing : requestHandler :=
  { mNetworkManager := { autoDeleteReplies := true, started := 2 }
    mReply := some { id := 1, operation := .GetOperation,
                     request := { url := "https://api.example.com/data", transferTimeout := 3000,
                                  rawHeaders := [("Content-Type", "application/json")] },
                     running := false, unread := [] }
    mBuffer := []
    mProcessing := true
    mStatus := .Processing }

/-- State `staleProcessing` after an accepted `getRequest`. -/
def staleProcessingRestarted : requestHandler :=
  { mNetworkManager := { autoDeleteReplies := true, started := 3 }
    mReply := some { id := 2, operation := .GetOperation,
                     request := { url := "https://api.example.com/next", transferTimeout := 3000,
                                  rawHeaders := [("Content-Type", "application/json")] },
                     running := true, unread := [] }
    mBuffer := []
    mProcessing := true
    mStatus := .Pending }

/-- State `idleAfterRequest` after `resetStatus()`: status `None`, the reply of
the earlier request still assigned and no longer running. -/
def idleReset : requestHandler :=
  { mNetworkManager := { autoDeleteReplies := true, started := 1 }
    mReply := some { id := 0, operation := .GetOperation,
                     request := getDescriptor "https://api.example.com/first",
                     running := false, unread := [] }
    mBuffer := [1, 2, 3]
    mProcessing := false
    mStatus := .None }

/-! ## Views used by the later claims -/

/-- Request descriptor `postRequest(url, body, extraHeads)` builds. -/
def postDescriptor (url : QUrl) (extraHeads : QVariantMap) : QNetworkRequest :=
  applyExtraHeads extraHeads (getDescriptor url)

/-- Descriptor handed to the transport by a start: the request of the reply the
controller points to after the call returned true; nothing when the call was
rejected or did not return. -/
def handedDescriptor (res : Except Fault (Outcome Bool)) : Option QNetworkRequest :=
  match res with
  | .error _ => none
  | .ok o => if o.ret then o.state.mReply.map QNetworkReply.request else none

/-- Content type of a handed descriptor. -/
def handedContentType (res : Except Fault (Outcome Bool)) : Option (Option HeaderText) :=
  (handedDescriptor res).map (fun req => req.rawHeader "Content-Type")

/-- The argument `setStatus` passes to `setProcessing` for a status value. -/
def Status.isBusy (t : Status) : Bool :=
  t == Status.Pending || t == Status.Processing

/-- What a caller and an observer of the controller can tell of a start: the
return value, the resulting status, busy flag and buffer, and the notifications
with what each observer read; a start that does not return shows its fault. -/
def controllerEffect (res : Except Fault (Outcome Bool)) :
    Except Fault (Bool × Status × Bool × QByteArray × List Emission) :=
  match res with
  | .error f => .error f
  | .ok o => .ok (o.ret, o.state.status, o.state.processing, o.state.mBuffer, o.emitted)

/-- What the transport side shows after a start, the descriptor and verb left
out: the transport itself and the identity, running flag and unread bytes of
the reply the controller points to. -/
def transportEffect (res : Except Fault (Outcome Bool)) :
    Option (QNetworkAccessManager × Option (Nat × Bool × QByteArray)) :=
  match res with
  | .error _ => none
  | .ok o => some (o.state.mNetworkManager,
      o.state.mReply.map (fun r => (r.id, r.running, r.unread)))

/-- Outcome of `onFinished` delivered to `idleReset`. -/
def finishedFromReset : Outcome (Option Bool) :=
  { ret := none
    state := idleAfterRequest
    emitted := [⟨.statusChanged, .Completed, false⟩,
                ⟨.finished [1, 2, 3], .Completed, false⟩] }

/-- Buffers expected after each data event of a chunked transfer that starts
with the buffer `start`: after the i-th event, `start ++ c1 ++ ... ++ ci`. -/
def buffersAfterChunks (start : QByteArray) : List QByteArray → List QByteArray
  | [] => []
  | c :: cs => (start ++ c) :: buffersAfterChunks (start ++ c) cs

/-- Calls of member functions, as opposed to transport-side changes of the reply. -/
def Event.isCall : Event → Bool
  | .transportData _ => false
  | .transportDone => false
  | _ => true

/-- States seen after each call of a sequence that returned, in order; the
transport-side changes in between take effect and are not recorded. -/
def requestHandler.observeCalls (self : requestHandler) : List Event → List requestHandler
  | [] => []
  | e :: es =>
    match self.step e with
    | .error _ => []
    | .ok o =>
      if e.isCall then o.state :: requestHandler.observeCalls o.state es
      else requestHandler.observeCalls o.state es

/-- State `pendingRequest` after `resetStatus()`: status `None`, busy flag
clear, the reply still running. -/
def resetWhileRunning : requestHandler :=
  { mNetworkManager := { autoDeleteReplies := true, started := 2 }
    mReply := some { id := 1, operation := .GetOperation,
                     request := { url := "https://api.example.com/data", transferTimeout := 3000,
                                  rawHeaders := [("Content-Type", "application/json")] },
                     running := true, unread := [] }
    mBuffer := []
    mProcessing := false
    mStatus := .None }

/-- State `pendingRequest` once the transport has made five bytes readable. -/
def dataWaiting : requestHandler :=
  { mNetworkManager := { autoDeleteReplies := true, started := 2 }
    mReply := some { id := 1, operation := .GetOperation,
                     request := { url := "https://api.example.com/data", transferTimeout := 3000,
                                  rawHeaders := [("Content-Type", "application/json")] },
                     running := true, unread := [104, 101, 108, 108, 111] }
    mBuffer := []
    mProcessing := true
    mStatus := .Pending }

/-- Outcome of `onReadyRead` in `dataWaiting`. -/
def dataRead : Outcome (Option Bool) :=
  { ret := none
    state :=
      { mNetworkManager := { autoDeleteReplies := true, started := 2 }
        mReply := some { id := 1, operation := .GetOperation,
                         request := { url := "https://api.example.com/data",
                                      transferTimeout := 3000,
                                      rawHeaders := [("Content-Type", "application/json")] },
                         running := true, unread := [] }
        mBuffer := [104, 101, 108, 108, 111]
        mProcessing := true
        mStatus := .Processing }
    emitted := [⟨.statusChanged, .Processing, true⟩] }

/-! ## Basic facts about `setStatus` -/

namespace requestHandler

theorem setStatus_status (s : requestHandler) (t : Status) :
    (s.setStatus t).state.mStatus = t := by
  unfold setStatus setProcessing
  by_cases h : s.mStatus = t
  · simp [h]
  · by_cases h2 : s.mProcessing = (t == Status.Pending || t == Status.Processing)
    · simp [h, h2]
    · simp [h, h2]

theorem setStatus_processing_of_ne (s : requestHandler) (t : Status) (h : s.mStatus ≠ t) :
    (s.setStatus t).state.mProcessing = (t == Status.Pending || t == Status.Processing) := by
  unfold setStatus setProcessing
  by_cases h2 : s.mProcessing = (t == Status.Pending || t == Status.Processing)
  · simp [h, h2]
  · simp [h, h2]

theorem setStatus_of_eq (s : requestHandler) (t : Status) (h : s.mStatus = t) :
    s.setStatus t = ⟨(), s, []⟩ := by
  unfold setStatus
  simp [h]

theorem setStatus_mBuffer (s : requestHandler) (t : Status) :
    (s.setStatus t).state.mBuffer = s.mBuffer := by
  unfold setStatus setProcessing
  by_cases h : s.mStatus = t
  · simp [h]
  · by_cases h2 : s.mProcessing = (t == Status.Pending || t == Status.Processing)
    · simp [h, h2]
    · simp [h, h2]

theorem setStatus_mReply (s : requestHandler) (t : Status) :
    (s.setStatus t).state.mReply = s.mReply := by
  unfold setStatus setProcessing
  by_cases h : s.mStatus = t
  · simp [h]
  · by_cases h2 : s.mProcessing = (t == Status.Pending || t == Status.Processing)
    · simp [h, h2]
    · simp [h, h2]

theorem setStatus_mNetworkManager (s : requestHandler) (t : Status) :
    (s.setStatus t).state.mNetworkManager = s.mNetworkManager := by
  unfold setStatus setProcessing
  by_cases h : s.mStatus = t
  · simp [h]
  · by_cases h2 : s.mProcessing = (t == Status.Pending || t == Status.Processing)
    · simp [h, h2]
    · simp [h, h2]

/-- Signals emitted by `setStatus` are only the two change notifications. -/
theorem setStatus_emitted_signals (s : requestHandler) (t : Status) :
    ∀ e ∈ (s.setStatus t).emitted,
      e.signal = Signal.statusChanged ∨ e.signal = Signal.processingChanged := by
  unfold setStatus setProcessing
  by_cases h : s.mStatus = t
  · simp [h]
  · by_cases h2 : s.mProcessing = (t == Status.Pending || t == Status.Processing)
    · simp [h, h2, emit]
    · simp [h, h2, emit]

theorem busyMatchesStatus_iff (s : requestHandler) :
    busyMatchesStatus s ↔ s.mProcessing = (s.mStatus == Status.Pending || s.mStatus == Status.Processing) := by
  unfold busyMatchesStatus processing status
  cases s.mProcessing <;> cases s.mStatus <;> simp

theorem setStatus_busyMatchesStatus (s : requestHandler) (t : Status)
    (h : busyMatchesStatus s) : busyMatchesStatus (s.setStatus t).state := by
  by_cases hs : s.mStatus = t
  · rw [setStatus_of_eq s t hs]
    exact h
  · rw [busyMatchesStatus_iff, setStatus_status, setStatus_processing_of_ne s t hs]

/-- The invariant only reads the busy flag and the status. -/
theorem busyMatchesStatus_congr (s s' : requestHandler) (hp : s'.mProcessing = s.mProcessing)
    (hs : s'.mStatus = s.mStatus) (h : busyMatchesStatus s) : busyMatchesStatus s' := by
  rw [busyMatchesStatus_iff] at h ⊢
  rw [hp, hs]
  exact h

theorem deliver_busyMatchesStatus (s : requestHandler) (sig : ReplySignal) (o : Outcome Unit)
    (h : busyMatchesStatus s) (ho : s.deliver sig = .ok o) : busyMatchesStatus o.state := by
  cases sig with
  | readyRead =>
    simp only [deliver, onReadyRead] at ho
    cases hr : s.mReply with
    | none => simp [hr] at ho
    | some r =>
      simp [hr] at ho
      subst ho
      apply setStatus_busyMatchesStatus
      exact busyMatchesStatus_congr s _ rfl rfl h
  | finished =>
    simp only [deliver, onFinished] at ho
    cases hr : s.mReply with
    | none => simp [hr] at ho
    | some r =>
      simp [hr] at ho
      subst ho
      apply setStatus_busyMatchesStatus
      exact busyMatchesStatus_congr s _ rfl rfl h
  | errorOccurred error =>
    simp only [deliver, onErrorOccurred, Except.ok.injEq] at ho
    subst ho
    exact setStatus_busyMatchesStatus s _ h

theorem deliverAll_busyMatchesStatus (sigs : List ReplySignal) :
    ∀ (s : requestHandler) (o : Outcome Unit), busyMatchesStatus s →
      s.deliverAll sigs = .ok o → busyMatchesStatus o.state := by
  induction sigs with
  | nil =>
    intro s o h ho
    simp only [deliverAll, Except.ok.injEq] at ho
    subst ho
    exact h
  | cons sig sigs ih =>
    intro s o h ho
    simp only [deliverAll] at ho
    cases h1 : s.deliver sig with
    | error f => simp [h1] at ho
    | ok o1 =>
      simp only [h1] at ho
      cases h2 : o1.state.deliverAll sigs with
      | error f => simp [h2] at ho
      | ok o2 =>
        simp only [h2, Except.ok.injEq] at ho
        subst ho
        exact ih o1.state o2 (deliver_busyMatchesStatus s sig o1 h h1) h2

theorem abort_busyMatchesStatus (s : requestHandler) (o : Outcome Unit)
    (h : busyMatchesStatus s) (ho : s.abort = .ok o) : busyMatchesStatus o.state := by
  simp only [abort] at ho
  cases hr : s.mReply with
  | none => simp [hr] at ho
  | some r =>
    simp only [hr] at ho
    cases hd : ({ s with mReply := some r.abort.1 } : requestHandler).deliverAll r.abort.2 with
    | error f => simp [hd] at ho
    | ok o1 =>
      simp only [hd, Except.ok.injEq] at ho
      subst ho
      apply setStatus_busyMatchesStatus
      exact deliverAll_busyMatchesStatus r.abort.2
        ({ s with mReply := some r.abort.1 } : requestHandler) o1
        (busyMatchesStatus_congr s _ rfl rfl h) hd

theorem step_busyMatchesStatus (s : requestHandler) (e : Event) (o : Outcome (Option Bool))
    (h : busyMatchesStatus s) (ho : s.step e = .ok o) : busyMatchesStatus o.state := by
  cases e with
  | getRequest url =>
    simp only [step, getRequest] at ho
    cases hr : s.mReply with
    | none => simp [hr] at ho
    | some r =>
      by_cases hrun : r.isRunning = true
      · simp [hr, hrun] at ho
        subst ho
        exact h
      · simp [hr, hrun] at ho
        subst ho
        simp only [Outcome.withRet]
        rw [busyMatchesStatus_iff, setStatus_status, setStatus_processing_of_ne]
        simp only [setStatus_status]
        simp
  | postRequest url body extraHeads =>
    simp only [step, postRequest] at ho
    cases hr : s.mReply with
    | none => simp [hr] at ho
    | some r =>
      by_cases hrun : r.isRunning = true
      · simp [hr, hrun] at ho
        subst ho
        exact h
      · simp [hr, hrun] at ho
        subst ho
        simp only [Outcome.withRet]
        rw [busyMatchesStatus_iff, setStatus_status, setStatus_processing_of_ne]
        simp only [setStatus_status]
        simp
  | onReadyRead =>
    simp only [step, onReadyRead] at ho
    cases hr : s.mReply with
    | none => simp [hr] at ho
    | some r =>
      simp [hr] at ho
      subst ho
      simp only [Outcome.withRet]
      apply setStatus_busyMatchesStatus
      exact busyMatchesStatus_congr s _ rfl rfl h
  | onFinished =>
    simp only [step, onFinished] at ho
    cases hr : s.mReply with
    | none => simp [hr] at ho
    | some r =>
      simp [hr] at ho
      subst ho
      simp only [Outcome.withRet]
      apply setStatus_busyMatchesStatus
      exact busyMatchesStatus_congr s _ rfl rfl h
  | onErrorOccurred error =>
    simp only [step, onErrorOccurred, Except.ok.injEq] at ho
    subst ho
    simp only [Outcome.withRet]
    exact setStatus_busyMatchesStatus s _ h
  | abort =>
    simp only [step] at ho
    cases ha : s.abort with
    | error f => simp [ha] at ho
    | ok o1 =>
      simp only [ha, Except.ok.injEq] at ho
      subst ho
      exact abort_busyMatchesStatus s o1 h ha
  | resetStatus =>
    simp only [step, resetStatus, Except.ok.injEq] at ho
    subst ho
    simp only [Outcome.withRet]
    exact setStatus_busyMatchesStatus s _ h
  | transportData bytes =>
    simp only [step, Except.ok.injEq] at ho
    subst ho
    exact busyMatchesStatus_congr s _ rfl rfl h
  | transportDone =>
    simp only [step, Except.ok.injEq] at ho
    subst ho
    exact busyMatchesStatus_congr s _ rfl rfl h

theorem observe_busyMatchesStatus (es : List Event) :
    ∀ s : requestHandler, busyMatchesStatus s → ∀ s' ∈ s.observe es, busyMatchesStatus s' := by
  induction es with
  | nil => intro s _ s' hs'; simp [observe] at hs'
  | cons e es ih =>
    intro s h s' hs'
    simp only [observe] at hs'
    cases hst : s.step e with
    | error f => simp [hst] at hs'
    | ok o =>
      simp only [hst, List.mem_cons] at hs'
      have ho := step_busyMatchesStatus s e o h hst
      rcases hs' with rfl | hs'
      · exact ho
      · exact ih o.state ho s' hs'

end requestHandler

/-! ## Claims -/

/-- C1: whatever the unassigned reply pointer of a freshly constructed controller
holds (`none` is the pointer that was never assigned), after every event of
every finite sequence of `getRequest`, `postRequest`, `onReadyRead`,
`onFinished`, `onErrorOccurred`, `abort`, `resetStatus` (and transport-side
changes of the reply) that returned, `processing` is true exactly when `status`
is `Pending` or `Processing`. -/
theorem C1_busy_iff_pending_or_processing (r : Option QNetworkReply) (es : List Event) :
    ∀ s ∈ ({ requestHandler.new with mReply := r } : requestHandler).observe es,
      s.processing = true ↔ (s.status = Status.Pending ∨ s.status = Status.Processing) := by
  intro s hs
  have h0 : busyMatchesStatus ({ requestHandler.new with mReply := r } : requestHandler) := by
    rw [busyMatchesStatus_iff]
    rfl
  exact observe_busyMatchesStatus es _ h0 s hs

/-- C1 at a served request: a get, five bytes of data and the finish, observed at the end. -/
theorem C1_busy_iff_pending_or_processing_witness :
    servedFromFresh ∈
        ({ requestHandler.new with mReply := idleAfterRequest.mReply } : requestHandler).observe
          [.getRequest "https://api.example.com/data", .transportData [104, 101, 108, 108, 111],
           .onReadyRead, .onFinished] ∧
      (servedFromFresh.processing = true ↔
        (servedFromFresh.status = Status.Pending ∨ servedFromFresh.status = Status.Processing)) :=
  ⟨by decide,
   C1_busy_iff_pending_or_processing idleAfterRequest.mReply
     [.getRequest "https://api.example.com/data", .transportData [104, 101, 108, 108, 111],
      .onReadyRead, .onFinished]
     servedFromFresh (by decide)⟩

/-- C2 (as stated) fails: in `staleProcessing` the status is `Processing`, yet
`getRequest` and `postRequest` return true, replace the reply handle, pass the
status through `None` to `Pending` and emit four notifications. -/
theorem C2_counterexample :
    (idleAfterRequest.run
        [.getRequest "https://api.example.com/data", .abort, .onReadyRead]).toOption.map Prod.fst
        = some staleProcessing ∧
      staleProcessing.status = Status.Processing ∧
      (staleProcessing.getRequest "https://api.example.com/next").toOption.map
          (fun o => (o.ret, o.state, o.emitted.map Emission.signal))
        = some (true, staleProcessingRestarted,
            [.statusChanged, .processingChanged, .statusChanged, .processingChanged]) ∧
      (staleProcessing.postRequest "https://api.example.com/next" [] []).toOption.map
          (fun o => (o.ret, o.state.status, o.state.mReply == staleProcessing.mReply))
        = some (true, Status.Pending, false) := by
  decide

/-- C2 (amended): whenever the reply handle exists and reports running,
whatever the status, `getRequest` and `postRequest` return false, leave the
whole controller (status, buffer, reply handle) unchanged and emit nothing. -/
theorem C2_rejected_while_reply_running (s : requestHandler) (r : QNetworkReply) (url : QUrl)
    (body : QByteArray) (extraHeads : QVariantMap)
    (hr : s.mReply = some r) (hrun : r.isRunning = true) :
    s.getRequest url = .ok ⟨false, s, []⟩ ∧
      s.postRequest url body extraHeads = .ok ⟨false, s, []⟩ := by
  constructor
  · simp [getRequest, hr, hrun]
  · simp [postRequest, hr, hrun]

/-- C2 (amended) at `pendingRequest`: both starts are rejected and change nothing. -/
theorem C2_rejected_while_reply_running_witness :
    pendingRequest.getRequest "https://api.example.com/other" = .ok ⟨false, pendingRequest, []⟩ ∧
      pendingRequest.postRequest "https://api.example.com/other" [1] [("X-Auth", "tok")]
        = .ok ⟨false, pendingRequest, []⟩ :=
  C2_rejected_while_reply_running pendingRequest
    { id := 1, operation := .GetOperation,
      request := { url := "https://api.example.com/data", transferTimeout := 3000,
                   rawHeaders := [("Content-Type", "application/json")] },
      running := true, unread := [] }
    "https://api.example.com/other" [1] [("X-Auth", "tok")] rfl rfl

namespace requestHandler

theorem run_append (es₁ es₂ : List Event) :
    ∀ s : requestHandler, s.run (es₁ ++ es₂) =
      match s.run es₁ with
      | .error f => .error f
      | .ok (s₁, em₁) =>
        match s₁.run es₂ with
        | .error f => .error f
        | .ok (s₂, em₂) => .ok (s₂, em₁ ++ em₂) := by
  induction es₁ with
  | nil =>
    intro s
    simp only [List.nil_append, run]
    cases s.run es₂ with
    | error f => rfl
    | ok p => rfl
  | cons e es ih =>
    intro s
    have hcons : s.run (e :: es ++ es₂) =
        match s.step e with
        | .error f => .error f
        | .ok o =>
          match o.state.run (es ++ es₂) with
          | .error f => .error f
          | .ok (s₂, em) => .ok (s₂, o.emitted ++ em) := rfl
    rw [hcons]
    cases hst : s.step e with
    | error f => simp [run, hst]
    | ok o =>
      simp only [run, hst, ih o.state]
      cases hre : o.state.run es with
      | error f => rfl
      | ok p =>
        obtain ⟨s₁, em₁⟩ := p
        cases hre2 : s₁.run es₂ with
        | error f => simp only [hre2]
        | ok q => simp only [hre2, List.append_assoc]

theorem finishedAmong_append (a b : List Emission) :
    finishedAmong (a ++ b) = finishedAmong a ++ finishedAmong b := by
  simp [finishedAmong]

theorem finishedAmong_of_changes (em : List Emission)
    (h : ∀ e ∈ em, e.signal = Signal.statusChanged ∨ e.signal = Signal.processingChanged) :
    finishedAmong em = [] := by
  induction em with
  | nil => rfl
  | cons e es ih =>
    have he := h e (List.mem_cons_self _ _)
    have hes := ih (fun x hx => h x (List.mem_cons_of_mem _ hx))
    simp only [finishedAmong, List.map_cons, List.filter_cons] at hes ⊢
    rcases he with he | he <;> simp [he, isFinished, hes]

/-- One chunk: bytes arrive, `onReadyRead` appends them. -/
theorem run_dataEvents (chunks : List QByteArray) :
    ∀ (s : requestHandler) (r : QNetworkReply), s.mReply = some r → r.unread = [] →
      ∃ s' em r', s.run (dataEvents chunks) = .ok (s', em) ∧ s'.mReply = some r' ∧
        r'.unread = [] ∧ s'.mBuffer = s.mBuffer ++ chunks.flatten ∧ finishedAmong em = [] := by
  induction chunks with
  | nil =>
    intro s r hr hu
    exact ⟨s, [], r, rfl, hr, hu, by simp, rfl⟩
  | cons c cs ih =>
    intro s r hr hu
    let s1 : requestHandler :=
      { s with mBuffer := s.mBuffer ++ c, mReply := some { r with unread := [] } }
    have hs1r : (s1.setStatus Status.Processing).state.mReply = some { r with unread := [] } := by
      rw [setStatus_mReply]
    obtain ⟨s', em, r', hrun, hr', hu', hb, hf⟩ :=
      ih (s1.setStatus Status.Processing).state { r with unread := [] } hs1r rfl
    refine ⟨s', (s1.setStatus Status.Processing).emitted ++ em, r', ?_, hr', hu', ?_, ?_⟩
    · have hstep1 : s.step (.transportData c) = .ok ⟨none, transportData s c, []⟩ := rfl
      have hstep2 : (transportData s c).step .onReadyRead
          = .ok ((s1.setStatus Status.Processing).withRet none) := by
        simp [step, onReadyRead, transportData, hr, hu, QNetworkReply.readAll, s1]
      simp only [dataEvents, run, hstep1, hstep2, Outcome.withRet, hrun, List.nil_append]
    · rw [hb, setStatus_mBuffer]
      simp [s1, List.append_assoc]
    · rw [finishedAmong_append, hf,
        finishedAmong_of_changes _ (setStatus_emitted_signals s1 Status.Processing)]
      rfl

/-- A start that returned true leaves an empty buffer and a reply with nothing to read. -/
theorem step_started (s : requestHandler) (start : Event) (o : Outcome (Option Bool))
    (ho : s.step start = .ok o) (hret : o.ret = some true) :
    o.state.mBuffer = [] ∧ ∃ r, o.state.mReply = some r ∧ r.unread = [] ∧ r.running = true := by
  cases start with
  | getRequest url =>
    simp only [step, getRequest] at ho
    cases hr : s.mReply with
    | none => simp [hr] at ho
    | some r =>
      by_cases hrun : r.isRunning = true
      · simp [hr, hrun] at ho
        subst ho
        simp [Outcome.withRet] at hret
      · simp [hr, hrun] at ho
        subst ho
        simp [Outcome.withRet, setStatus_mBuffer, setStatus_mReply, QNetworkAccessManager.get,
          QNetworkAccessManager.start]
  | postRequest url body extraHeads =>
    simp only [step, postRequest] at ho
    cases hr : s.mReply with
    | none => simp [hr] at ho
    | some r =>
      by_cases hrun : r.isRunning = true
      · simp [hr, hrun] at ho
        subst ho
        simp [Outcome.withRet] at hret
      · simp [hr, hrun] at ho
        subst ho
        simp [Outcome.withRet, setStatus_mBuffer, setStatus_mReply, QNetworkAccessManager.post,
          QNetworkAccessManager.start]
  | onReadyRead =>
    simp only [step] at ho
    cases h : s.onReadyRead with
    | error f => simp [h] at ho
    | ok o1 => simp [h] at ho; subst ho; simp [Outcome.withRet] at hret
  | onFinished =>
    simp only [step] at ho
    cases h : s.onFinished with
    | error f => simp [h] at ho
    | ok o1 => simp [h] at ho; subst ho; simp [Outcome.withRet] at hret
  | onErrorOccurred error =>
    simp only [step, Except.ok.injEq] at ho
    subst ho; simp [Outcome.withRet] at hret
  | abort =>
    simp only [step] at ho
    cases h : s.abort with
    | error f => simp [h] at ho
    | ok o1 => simp [h] at ho; subst ho; simp [Outcome.withRet] at hret
  | resetStatus =>
    simp only [step, Except.ok.injEq] at ho
    subst ho; simp [Outcome.withRet] at hret
  | transportData bytes =>
    simp only [step, Except.ok.injEq] at ho
    subst ho; simp at hret
  | transportDone =>
    simp only [step, Except.ok.injEq] at ho
    subst ho; simp at hret

/-- Slot `onFinished` on a reply with nothing left to read. -/
theorem onFinished_drained (s : requestHandler) (r : QNetworkReply) (hr : s.mReply = some r)
    (hu : r.unread = []) :
    ∃ s' em, s.run [.onFinished] = .ok (s', em) ∧ s'.mBuffer = s.mBuffer ∧
      finishedAmong em = [Signal.finished s.mBuffer] := by
  let s1 : requestHandler := { s with mBuffer := s.mBuffer ++ [], mReply := some { r with unread := [] } }
  refine ⟨(s1.setStatus Status.Completed).state,
    (s1.setStatus Status.Completed).emitted ++
      [(s1.setStatus Status.Completed).state.emit
        (.finished (s1.setStatus Status.Completed).state.mBuffer)], ?_, ?_, ?_⟩
  · simp [run, step, onFinished, hr, hu, QNetworkReply.readAll, Outcome.withRet, s1]
  · rw [setStatus_mBuffer]
    simp [s1]
  · rw [finishedAmong_append,
      finishedAmong_of_changes _ (setStatus_emitted_signals s1 Status.Completed), setStatus_mBuffer]
    simp [finishedAmong, emit, isFinished, s1]

end requestHandler

namespace requestHandler

/-- Buffers read after each call of a chunked transfer: every `onReadyRead`
appends the chunk that just arrived, the closing `onFinished` appends nothing. -/
theorem observeCalls_buffers (chunks : List QByteArray) :
    ∀ (s : requestHandler) (r : QNetworkReply), s.mReply = some r → r.unread = [] →
      (s.observeCalls (dataEvents chunks ++ [.onFinished])).map requestHandler.mBuffer
        = buffersAfterChunks s.mBuffer chunks ++ [s.mBuffer ++ chunks.flatten] := by
  induction chunks with
  | nil =>
    intro s r hr hu
    simp [dataEvents, observeCalls, step, onFinished, hr, hu, Outcome.withRet, Event.isCall,
      setStatus_mBuffer, QNetworkReply.readAll, buffersAfterChunks]
  | cons c cs ih =>
    intro s r hr hu
    have hstep1 : s.step (.transportData c) = .ok ⟨none, transportData s c, []⟩ := rfl
    have hr1 : (transportData s c).mReply = some { r with unread := c } := by
      simp [transportData, hr, hu]
    have hstep2 : (transportData s c).step .onReadyRead
        = .ok (Outcome.withRet
            (({ transportData s c with
                mBuffer := (transportData s c).mBuffer ++ c
                mReply := some { r with unread := [] } } : requestHandler).setStatus
              Status.Processing) none) := by
      simp only [step, onReadyRead, hr1, QNetworkReply.readAll]
    have hr2 : (({ transportData s c with
                mBuffer := (transportData s c).mBuffer ++ c
                mReply := some { r with unread := [] } } : requestHandler).setStatus
              Status.Processing).state.mReply = some { r with unread := [] } := by
      rw [setStatus_mReply]
    have hrest := ih _ _ hr2 rfl
    simp only [setStatus_mBuffer] at hrest
    simp only [dataEvents, List.cons_append, observeCalls, hstep1, hstep2, Event.isCall,
      List.map_cons, Outcome.withRet, buffersAfterChunks, List.flatten_cons]
    simp only [transportData] at hrest
    simp [hrest, setStatus_mBuffer, transportData, List.append_assoc]

end requestHandler

/-- C3: after a request was started successfully (the start, a `getRequest` or
`postRequest`, returned true) the buffer is empty; N data events, the i-th
making chunk `ci` readable and running `onReadyRead`, followed by one
`onFinished`, all return.  The buffer read after the i-th data event is
`c1 ++ ... ++ ci`, so that the i-th `onReadyRead` appends exactly `ci`; after
the data events the buffer is `c1 ++ ... ++ cN`, the reply has nothing left to
read and no `finished` notification was emitted yet; `onFinished` then reads no
further bytes, leaves the buffer as it is and emits the one `finished`
notification of the whole run, carrying that concatenation. -/
theorem C3_chunks_concatenated_and_delivered_once (s : requestHandler) (start : Event)
    (o : Outcome (Option Bool)) (chunks : List QByteArray)
    (hstart : s.step start = .ok o) (hret : o.ret = some true) :
    o.state.mBuffer = [] ∧
      (o.state.observeCalls (dataEvents chunks ++ [.onFinished])).map requestHandler.mBuffer
        = buffersAfterChunks [] chunks ++ [chunks.flatten] ∧
      ∃ s1 em1 r1 s2 em2,
        o.state.run (dataEvents chunks) = .ok (s1, em1) ∧
          s1.mBuffer = chunks.flatten ∧ s1.mReply = some r1 ∧ r1.unread = [] ∧
          finishedAmong em1 = [] ∧
          s1.run [.onFinished] = .ok (s2, em2) ∧
          s2.mBuffer = chunks.flatten ∧
          finishedAmong em2 = [Signal.finished chunks.flatten] ∧
          o.state.run (dataEvents chunks ++ [.onFinished]) = .ok (s2, em1 ++ em2) ∧
          finishedAmong (em1 ++ em2) = [Signal.finished chunks.flatten] := by
  obtain ⟨hb, r, hr, hu, _⟩ := step_started s start o hstart hret
  obtain ⟨s1, em1, r1, hrun1, hr1, hu1, hb1, hf1⟩ := run_dataEvents chunks o.state r hr hu
  obtain ⟨s2, em2, hrun2, hb2, hf2⟩ := onFinished_drained s1 r1 hr1 hu1
  have hflat : s1.mBuffer = chunks.flatten := by
    rw [hb1, hb]
    rfl
  refine ⟨hb, ?_, s1, em1, r1, s2, em2, hrun1, hflat, hr1, hu1, hf1, hrun2, ?_, ?_, ?_, ?_⟩
  · rw [observeCalls_buffers chunks o.state r hr hu, hb]
    rfl
  · rw [hb2, hflat]
  · rw [hf2, hflat]
  · rw [run_append, hrun1]
    simp only [hrun2]
  · rw [finishedAmong_append, hf1, hf2, hflat]
    rfl

/-- C3 at chunks of 5 and 7 bytes: buffers of 5 and 12 bytes after the two data
events, the 12 bytes delivered once by `onFinished`. -/
theorem C3_chunks_concatenated_and_delivered_once_witness :
    idleAfterRequest.step (.getRequest "https://api.example.com/data") = .ok startedFromIdle ∧
      startedFromIdle.ret = some true ∧
      ([[104, 101, 108, 108, 111], [44, 32, 119, 111, 114, 108, 100]] : List QByteArray).flatten.length
        = 12 ∧
      startedFromIdle.state.mBuffer = [] ∧
      (startedFromIdle.state.observeCalls
          (dataEvents [[104, 101, 108, 108, 111], [44, 32, 119, 111, 114, 108, 100]]
            ++ [.onFinished])).map requestHandler.mBuffer
        = [[104, 101, 108, 108, 111],
           [104, 101, 108, 108, 111, 44, 32, 119, 111, 114, 108, 100],
           [104, 101, 108, 108, 111, 44, 32, 119, 111, 114, 108, 100]] ∧
      ∃ s1 em1 r1 s2 em2,
        startedFromIdle.state.run
            (dataEvents [[104, 101, 108, 108, 111], [44, 32, 119, 111, 114, 108, 100]])
          = .ok (s1, em1) ∧
          s1.mBuffer = [104, 101, 108, 108, 111, 44, 32, 119, 111, 114, 108, 100] ∧
          s1.mReply = some r1 ∧ r1.unread = [] ∧
          finishedAmong em1 = [] ∧
          s1.run [.onFinished] = .ok (s2, em2) ∧
          s2.mBuffer = [104, 101, 108, 108, 111, 44, 32, 119, 111, 114, 108, 100] ∧
          finishedAmong em2
            = [Signal.finished [104, 101, 108, 108, 111, 44, 32, 119, 111, 114, 108, 100]] ∧
          startedFromIdle.state.run
              (dataEvents [[104, 101, 108, 108, 111], [44, 32, 119, 111, 114, 108, 100]]
                ++ [.onFinished]) = .ok (s2, em1 ++ em2) ∧
          finishedAmong (em1 ++ em2)
            = [Signal.finished [104, 101, 108, 108, 111, 44, 32, 119, 111, 114, 108, 100]] :=
  ⟨rfl, rfl, rfl,
   C3_chunks_concatenated_and_delivered_once idleAfterRequest
     (.getRequest "https://api.example.com/data") startedFromIdle
     [[104, 101, 108, 108, 111], [44, 32, 119, 111, 114, 108, 100]] rfl rfl⟩

namespace requestHandler

/-- What `setStatus` emits: nothing when the status is already the new one;
otherwise `statusChanged`, and `processingChanged` when the busy flag moves. -/
theorem setStatus_emitted (s : requestHandler) (t : Status) :
    (s.setStatus t).emitted =
      if s.mStatus = t then []
      else ⟨.statusChanged, t, s.mProcessing⟩ ::
        (if s.mProcessing = (t == Status.Pending || t == Status.Processing) then []
         else [⟨.processingChanged, t, (t == Status.Pending || t == Status.Processing)⟩]) := by
  unfold setStatus setProcessing
  by_cases h : s.mStatus = t
  · simp [h]
  · by_cases h2 : s.mProcessing = (t == Status.Pending || t == Status.Processing)
    · simp [h, h2, emit, status, processing]
    · simp [h, h2, emit, status, processing]

theorem setStatus_processing_of_eq (s : requestHandler) (t : Status) (h : s.mStatus = t) :
    (s.setStatus t).state.mProcessing = s.mProcessing := by
  rw [setStatus_of_eq s t h]

end requestHandler

namespace requestHandler

/-- Slot `abort` when the reply no longer runs: the reply emits nothing, so only
`emit aborted()` and `setStatus(Status::None)` take effect. -/
theorem abort_stopped (s : requestHandler) (r : QNetworkReply) (hr : s.mReply = some r)
    (hrun : r.isRunning = false) :
    s.abort = .ok ⟨(), (s.setStatus Status.None).state,
      s.emit Signal.aborted :: (s.setStatus Status.None).emitted⟩ := by
  obtain ⟨mgr, rep, buf, p, st⟩ := s
  simp only at hr
  subst hr
  simp only [QNetworkReply.isRunning] at hrun
  simp [abort, QNetworkReply.abort, hrun, deliverAll]

/-- A controller whose reply has nothing unread is not changed by the buffer
append and the reply update of `onFinished`. -/
theorem drained_eq (x : requestHandler) (r0 : QNetworkReply) (hx : x.mReply = some r0)
    (hu : r0.unread = []) :
    ({ x with mBuffer := x.mBuffer ++ r0.readAll.1, mReply := some r0.readAll.2 } :
      requestHandler) = x := by
  obtain ⟨mgr, rep, buf, p, st⟩ := x
  obtain ⟨id, op, req, run, unread⟩ := r0
  simp only at hx hu
  subst hx hu
  simp [QNetworkReply.readAll]

/-- Slot `abort` when the reply still runs: the reply is closed and stopped,
`onErrorOccurred(OperationCanceledError)` and `onFinished()` run, then
`emit aborted()` and `setStatus(Status::None)`. -/
theorem abort_running (s : requestHandler) (r : QNetworkReply) (hr : s.mReply = some r)
    (hrun : r.isRunning = true) :
    s.abort = .ok ⟨(),
      (((({ s with mReply := some { r with running := false, unread := [] } } :
          requestHandler).setStatus Status.Error).state.setStatus
            Status.Completed).state.setStatus Status.None).state,
      (({ s with mReply := some { r with running := false, unread := [] } } :
          requestHandler).setStatus Status.Error).emitted ++
        [(({ s with mReply := some { r with running := false, unread := [] } } :
          requestHandler).setStatus Status.Error).state.emit
            (Signal.errorOccurred (errorMessage OperationCanceledError))] ++
        ((({ s with mReply := some { r with running := false, unread := [] } } :
          requestHandler).setStatus Status.Error).state.setStatus Status.Completed).emitted ++
        [((({ s with mReply := some { r with running := false, unread := [] } } :
            requestHandler).setStatus Status.Error).state.setStatus
              Status.Completed).state.emit (Signal.finished s.mBuffer),
         ((({ s with mReply := some { r with running := false, unread := [] } } :
            requestHandler).setStatus Status.Error).state.setStatus
              Status.Completed).state.emit Signal.aborted] ++
        (((({ s with mReply := some { r with running := false, unread := [] } } :
            requestHandler).setStatus Status.Error).state.setStatus
              Status.Completed).state.setStatus Status.None).emitted⟩ := by
  simp only [QNetworkReply.isRunning] at hrun
  have hE : (({ s with mReply := some { r with running := false, unread := [] } } :
      requestHandler).setStatus Status.Error).state.mReply
      = some { r with running := false, unread := [] } := by
    rw [setStatus_mReply]
  have hfin : (({ s with mReply := some { r with running := false, unread := [] } } :
      requestHandler).setStatus Status.Error).state.onFinished
      = .ok ⟨(),
          ((({ s with mReply := some { r with running := false, unread := [] } } :
            requestHandler).setStatus Status.Error).state.setStatus Status.Completed).state,
          ((({ s with mReply := some { r with running := false, unread := [] } } :
            requestHandler).setStatus Status.Error).state.setStatus Status.Completed).emitted ++
          [((({ s with mReply := some { r with running := false, unread := [] } } :
            requestHandler).setStatus Status.Error).state.setStatus
              Status.Completed).state.emit (Signal.finished s.mBuffer)]⟩ := by
    simp only [onFinished, hE]
    rw [drained_eq _ _ hE rfl]
    simp only [setStatus_mBuffer]
  simp only [abort, hr, QNetworkReply.abort, hrun, if_true, deliverAll, deliver, onErrorOccurred,
    hfin, List.append_nil, List.append_assoc, List.cons_append, List.nil_append]

end requestHandler

/-- C4 (as stated) fails: in `pendingRequest` the status is `Pending` and the
reply runs; `abort()` makes the reply emit its error and finish signals, the
connected slots run inside the call, and the controller emits `errorOccurred`
and `finished` before `aborted`, the status passing `Error` and `Completed`. -/
theorem C4_counterexample :
    pendingRequest.status = Status.Pending ∧
      pendingRequest.abort.toOption.map
          (fun o => (o.state.status, o.state.processing, signals o, statusSeen o.emitted))
        = some (Status.None, false,
            [Signal.statusChanged, Signal.processingChanged,
             Signal.errorOccurred "Network Error (Code: 5)", Signal.statusChanged,
             Signal.finished [], Signal.aborted, Signal.statusChanged],
            [Status.Error, Status.Completed, Status.None]) := by
  decide

/-- C4 (amended): in every state with status `Pending` or `Processing` and an
existing reply handle, `abort()` returns, leaves status `None` and the busy flag
false, and emits exactly one `aborted`.  When the reply no longer runs it emits
`aborted` first, then the change notifications, and no `finished` and no
`errorOccurred`.  When the reply still runs, the cancel runs `onErrorOccurred`
and `onFinished` first: one `errorOccurred` for the cancel code and one
`finished` carrying the buffer are emitted before `aborted`. -/
theorem C4_abort_while_busy (s : requestHandler) (r : QNetworkReply)
    (hr : s.mReply = some r) (hs : s.status = Status.Pending ∨ s.status = Status.Processing) :
    ∃ o, s.abort = .ok o ∧ o.state.status = Status.None ∧ o.state.processing = false ∧
      signals o =
        (if r.isRunning = true then
          Signal.statusChanged ::
            ((if s.mProcessing = true then [Signal.processingChanged] else []) ++
              [Signal.errorOccurred (errorMessage OperationCanceledError), Signal.statusChanged,
               Signal.finished s.mBuffer, Signal.aborted, Signal.statusChanged])
         else
          Signal.aborted :: Signal.statusChanged ::
            (if s.mProcessing = true then [Signal.processingChanged] else [])) ∧
      (signals o).filter isAborted = [Signal.aborted] ∧
      (signals o).filter isFinished
        = (if r.isRunning = true then [Signal.finished s.mBuffer] else []) ∧
      (signals o).filter isErrorOccurred
        = (if r.isRunning = true then
            [Signal.errorOccurred (errorMessage OperationCanceledError)] else []) := by
  obtain ⟨mgr, rep, buf, p, st⟩ := s
  simp only [status] at hs
  cases hrun : r.isRunning with
  | true =>
    refine ⟨_, abort_running _ r hr hrun, ?_⟩
    rcases hs with rfl | rfl <;> cases p <;> exact ⟨rfl, rfl, rfl, rfl, rfl, rfl⟩
  | false =>
    refine ⟨_, abort_stopped _ r hr hrun, ?_⟩
    rcases hs with rfl | rfl <;> cases p <;> exact ⟨rfl, rfl, rfl, rfl, rfl, rfl⟩

/-- C4 (amended) at `pendingRequest`, whose reply runs. -/
theorem C4_abort_while_busy_witness :
    pendingRequest.mReply = some
        { id := 1, operation := .GetOperation,
          request := { url := "https://api.example.com/data", transferTimeout := 3000,
                       rawHeaders := [("Content-Type", "application/json")] },
          running := true, unread := [] } ∧
      (pendingRequest.status = Status.Pending ∨ pendingRequest.status = Status.Processing) ∧
      ∃ o, pendingRequest.abort = .ok o ∧ o.state.status = Status.None ∧
        o.state.processing = false ∧
        signals o =
          [Signal.statusChanged, Signal.processingChanged,
           Signal.errorOccurred (errorMessage OperationCanceledError), Signal.statusChanged,
           Signal.finished pendingRequest.mBuffer, Signal.aborted, Signal.statusChanged] ∧
        (signals o).filter isAborted = [Signal.aborted] ∧
        (signals o).filter isFinished = [Signal.finished pendingRequest.mBuffer] ∧
        (signals o).filter isErrorOccurred
          = [Signal.errorOccurred (errorMessage OperationCanceledError)] :=
  ⟨rfl, Or.inl rfl, C4_abort_while_busy pendingRequest _ rfl (Or.inl rfl)⟩

/-- C5 (as stated) fails: in `idleReset`, reached from `idleAfterRequest` by
`resetStatus()`, the status is `None` and `abort()` emits one `aborted`
notification. -/
theorem C5_counterexample :
    idleAfterRequest.resetStatus.state = idleReset ∧
      idleReset.status = Status.None ∧
      idleReset.abort.toOption.map (fun o => (o.state, o.emitted))
        = some (idleReset, [⟨Signal.aborted, Status.None, false⟩]) := by
  decide

/-- C5 (amended): in every state with status `None` and an existing reply
handle, `abort()` returns with status `None`, the buffer as it was, and exactly
one `aborted` notification.  When the reply no longer runs, `aborted` is the
only notification and the busy flag stays as it was.  When the reply still runs
(status `None` after `resetStatus()`), the cancel runs `onErrorOccurred` and
`onFinished` first, so that `statusChanged`, `errorOccurred`, `statusChanged`
and `finished` precede `aborted`, and a last `statusChanged` brings the status
back to `None` with the busy flag false. -/
theorem C5_abort_in_none_emits_aborted (s : requestHandler) (r : QNetworkReply)
    (hr : s.mReply = some r) (hs : s.status = Status.None) :
    ∃ o, s.abort = .ok o ∧ o.state.status = Status.None ∧ o.state.mBuffer = s.mBuffer ∧
      o.state.processing = (if r.isRunning = true then false else s.processing) ∧
      (signals o).filter isAborted = [Signal.aborted] ∧
      signals o =
        (if r.isRunning = true then
          Signal.statusChanged ::
            ((if s.mProcessing = true then [Signal.processingChanged] else []) ++
              [Signal.errorOccurred (errorMessage OperationCanceledError), Signal.statusChanged,
               Signal.finished s.mBuffer, Signal.aborted, Signal.statusChanged])
         else [Signal.aborted]) := by
  obtain ⟨mgr, rep, buf, p, st⟩ := s
  simp only [status] at hs
  subst hs
  cases hrun : r.isRunning with
  | true =>
    refine ⟨_, abort_running _ r hr hrun, ?_⟩
    cases p <;> exact ⟨rfl, rfl, rfl, rfl, rfl⟩
  | false =>
    refine ⟨_, abort_stopped _ r hr hrun, ?_⟩
    cases p <;> exact ⟨rfl, rfl, rfl, rfl, rfl⟩

/-- C5 (amended) at `idleReset`, whose reply no longer runs. -/
theorem C5_abort_in_none_emits_aborted_witness :
    idleReset.mReply = some
        { id := 0, operation := .GetOperation,
          request := getDescriptor "https://api.example.com/first",
          running := false, unread := [] } ∧
      idleReset.status = Status.None ∧
      ∃ o, idleReset.abort = .ok o ∧ o.state.status = Status.None ∧
        o.state.mBuffer = idleReset.mBuffer ∧
        o.state.processing = idleReset.processing ∧
        (signals o).filter isAborted = [Signal.aborted] ∧
        signals o = [Signal.aborted] :=
  ⟨rfl, rfl, C5_abort_in_none_emits_aborted idleReset _ rfl rfl⟩

/-- C6 (code at the failing input): on a freshly constructed controller the
reply pointer was never assigned, and `getRequest`, `postRequest` and `abort`
all dereference it: each call ends in the fault branch instead of returning. -/
theorem C6_fresh_controller_faults (url : QUrl) (body : QByteArray) (extraHeads : QVariantMap) :
    requestHandler.new.mReply = none ∧
      requestHandler.new.getRequest url = .error Fault.nullReply ∧
      requestHandler.new.postRequest url body extraHeads = .error Fault.nullReply ∧
      requestHandler.new.abort = .error Fault.nullReply :=
  ⟨rfl, rfl, rfl, rfl⟩

/-- C7: in every state `resetStatus()` leaves status `None`, leaves the buffer,
the reply handle (running or not) and the transport untouched, and emits only
change notifications: nothing when the status was `None` already, otherwise
`statusChanged`, followed by `processingChanged` when the busy flag was set;
never `aborted`, `finished` or `errorOccurred`. -/
theorem C7_resetStatus_forces_none (s : requestHandler) :
    s.resetStatus.state.status = Status.None ∧
      s.resetStatus.state.mBuffer = s.mBuffer ∧
      s.resetStatus.state.mReply = s.mReply ∧
      s.resetStatus.state.mNetworkManager = s.mNetworkManager ∧
      signals s.resetStatus =
        (if s.mStatus = Status.None then []
         else Signal.statusChanged ::
           (if s.mProcessing = true then [Signal.processingChanged] else [])) ∧
      (signals s.resetStatus).filter isAborted = [] ∧
      (signals s.resetStatus).filter isFinished = [] ∧
      (signals s.resetStatus).filter isErrorOccurred = [] := by
  have hsig : signals s.resetStatus =
      (if s.mStatus = Status.None then []
       else Signal.statusChanged ::
         (if s.mProcessing = true then [Signal.processingChanged] else [])) := by
    simp only [signals, resetStatus, setStatus_emitted]
    by_cases h : s.mStatus = Status.None
    · simp [h]
    · cases hp : s.mProcessing <;> simp [h]
  refine ⟨?_, ?_, ?_, ?_, hsig, ?_, ?_, ?_⟩
  · simp only [status, resetStatus, setStatus_status]
  · simp only [resetStatus, setStatus_mBuffer]
  · simp only [resetStatus, setStatus_mReply]
  · simp only [resetStatus, setStatus_mNetworkManager]
  · rw [hsig]
    by_cases h : s.mStatus = Status.None
    · simp [h]
    · cases hp : s.mProcessing <;> simp [h, isAborted]
  · rw [hsig]
    by_cases h : s.mStatus = Status.None
    · simp [h]
    · cases hp : s.mProcessing <;> simp [h, isFinished]
  · rw [hsig]
    by_cases h : s.mStatus = Status.None
    · simp [h]
    · cases hp : s.mProcessing <;> simp [h, isErrorOccurred]

/-- C8: in every state and for every transport error code `e`,
`onErrorOccurred(e)` leaves status `Error`, leaves the buffer (and the reply)
unchanged, and emits exactly one `errorOccurred` notification, after the change
notifications; its message is "Network Error (Code: " followed by the decimal
rendering of `e` and ")". -/
theorem C8_onErrorOccurred_reports_code (s : requestHandler) (e : Int) :
    (s.onErrorOccurred e).state.status = Status.Error ∧
      (s.onErrorOccurred e).state.mBuffer = s.mBuffer ∧
      (s.onErrorOccurred e).state.mReply = s.mReply ∧
      (signals (s.onErrorOccurred e)).filter isErrorOccurred
        = [Signal.errorOccurred ("Network Error (Code: " ++ toString e ++ ")")] ∧
      (signals (s.onErrorOccurred e)).filter isFinished = [] ∧
      (signals (s.onErrorOccurred e)).filter isAborted = [] := by
  have hsig : signals (s.onErrorOccurred e) =
      (if s.mStatus = Status.Error then []
       else Signal.statusChanged ::
         (if s.mProcessing = true then [Signal.processingChanged] else []))
      ++ [Signal.errorOccurred ("Network Error (Code: " ++ toString e ++ ")")] := by
    simp only [signals, onErrorOccurred, setStatus_emitted, errorMessage, emit]
    by_cases h : s.mStatus = Status.Error
    · simp [h]
    · cases hp : s.mProcessing <;> simp [h]
  refine ⟨?_, ?_, ?_, ?_, ?_, ?_⟩
  · simp only [status, onErrorOccurred, setStatus_status]
  · simp only [onErrorOccurred, setStatus_mBuffer]
  · simp only [onErrorOccurred, setStatus_mReply]
  · rw [hsig]
    by_cases h : s.mStatus = Status.Error
    · simp [h, isErrorOccurred]
    · cases hp : s.mProcessing <;> simp [h, isErrorOccurred]
  · rw [hsig]
    by_cases h : s.mStatus = Status.Error
    · simp [h, isFinished]
    · cases hp : s.mProcessing <;> simp [h, isFinished]
  · rw [hsig]
    by_cases h : s.mStatus = Status.Error
    · simp [h, isAborted]
    · cases hp : s.mProcessing <;> simp [h, isAborted]

/-- Scenario of C8: an accepted `postRequest(url, body, {"X-Auth": "tok"})`
followed by transport error 7 ends in status `Error` with the buffer as it was
and one `errorOccurred` notification whose message is "Network Error (Code: 7)". -/
theorem onErrorOccurred_after_post_scenario :
    (idleAfterRequest.run
        [.postRequest "https://api.example.com/login" [123, 125] [("X-Auth", "tok")],
         .transportData [1, 2], .onReadyRead, .onErrorOccurred 7]).toOption.map
        (fun p => (p.1.status, p.1.mBuffer, (p.2.map Emission.signal).filter isErrorOccurred))
      = some (Status.Error, [1, 2], [Signal.errorOccurred "Network Error (Code: 7)"]) := by
  decide

/-- C9: whenever the reply handle exists and reports not running,
`getRequest(url)` returns true, leaves the buffer empty, status `Pending` and the
busy flag true, and replaces the reply handle by the operation the transport
returns for the descriptor (a handle different from the old one); an observer
of `statusChanged` sees `None` and then `Pending` unless the prior status was
`None`, in which case it sees `Pending` only. -/
theorem C9_getRequest_when_idle (s : requestHandler) (r : QNetworkReply) (url : QUrl)
    (hr : s.mReply = some r) (hrun : r.isRunning = false) :
    ∃ o, s.getRequest url = .ok o ∧ o.ret = true ∧ o.state.mBuffer = [] ∧
      o.state.status = Status.Pending ∧ o.state.processing = true ∧
      o.state.mReply = some (s.mNetworkManager.get (getDescriptor url)).1 ∧
      o.state.mReply ≠ s.mReply ∧
      statusSeen o.emitted =
        (if s.status = Status.None then [Status.Pending] else [Status.None, Status.Pending]) := by
  obtain ⟨mgr, rep, buf, p, st⟩ := s
  simp only at hr
  subst hr
  simp only [QNetworkReply.isRunning] at hrun
  refine ⟨_, by simp only [getRequest, QNetworkReply.isRunning, hrun]; rfl, rfl, ?_, ?_, ?_, ?_, ?_, ?_⟩
  · simp only [setStatus_mBuffer]
  · simp only [status, setStatus_status]
  · simp only [processing]
    rw [setStatus_processing_of_ne]
    · rfl
    · simp only [setStatus_status]
      decide
  · simp only [setStatus_mReply, setStatus_mNetworkManager, getDescriptor]
  · simp only [setStatus_mReply, QNetworkAccessManager.get, QNetworkAccessManager.start]
    intro hc
    have hc2 := congrArg (fun x => x.map QNetworkReply.running) hc
    simp [hrun] at hc2
  · cases st <;> cases p <;> rfl

/-- C9 at `idleAfterRequest`, whose prior status is `Completed`. -/
theorem C9_getRequest_when_idle_witness :
    idleAfterRequest.mReply = some
        { id := 0, operation := .GetOperation,
          request := getDescriptor "https://api.example.com/first",
          running := false, unread := [] } ∧
      ∃ o, idleAfterRequest.getRequest "https://api.example.com/data" = .ok o ∧ o.ret = true ∧
        o.state.mBuffer = [] ∧ o.state.status = Status.Pending ∧ o.state.processing = true ∧
        o.state.mReply = some
          (idleAfterRequest.mNetworkManager.get (getDescriptor "https://api.example.com/data")).1 ∧
        o.state.mReply ≠ idleAfterRequest.mReply ∧
        statusSeen o.emitted =
          (if idleAfterRequest.status = Status.None then [Status.Pending]
           else [Status.None, Status.Pending]) :=
  ⟨rfl, C9_getRequest_when_idle idleAfterRequest _ "https://api.example.com/data" rfl rfl⟩

/-- C10 (code at the failing input): an accepted
`postRequest(url, body, {"X-Auth": "tok"})` hands the transport a descriptor
whose only raw header is the content type; no header `X-Auth` is set, because
the loop visits the value `tok`, uses it as the header name and looks it up in
the map as if it were a key. -/
theorem C10_extra_header_not_applied :
    applyExtraHeads [("X-Auth", "tok")] (getDescriptor "https://api.example.com/login")
        = (getDescriptor "https://api.example.com/login").setRawHeader "tok" none ∧
      (idleAfterRequest.postRequest "https://api.example.com/login" [123, 125]
          [("X-Auth", "tok")]).toOption.map
        (fun o => (o.ret, o.state.mReply.map
          (fun r => (r.request.rawHeaders, r.request.rawHeader "X-Auth"))))
      = some (true, some ([("Content-Type", "application/json")], none)) := by
  decide

/-! ## Facts about raw headers -/

theorem sameHeaderName_trans (a b c : HeaderText) (hab : sameHeaderName a b = true)
    (hac : sameHeaderName a c = true) : sameHeaderName b c = true := by
  simp only [sameHeaderName, beq_iff_eq] at hab hac ⊢
  rw [← hab, hac]

theorem find_filter_keeps {α : Type} (p q : α → Bool) (hpq : ∀ h, p h = true → q h = true)
    (l : List α) : (l.filter q).find? p = l.find? p := by
  induction l with
  | nil => rfl
  | cons a l ih =>
    by_cases hq : q a = true
    · by_cases hp : p a = true
      · simp [List.filter_cons, hq, List.find?_cons, hp]
      · simp [List.filter_cons, hq, List.find?_cons, hp, ih]
    · have hp : ¬ p a = true := fun h => hq (hpq a h)
      simp [List.filter_cons, hq, List.find?_cons, hp, ih]

theorem find_append_miss {α : Type} (p : α → Bool) (x : α) (hx : p x = false) (l : List α) :
    (l ++ [x]).find? p = l.find? p := by
  induction l with
  | nil => simp [List.find?_cons, hx]
  | cons a l ih =>
    by_cases hp : p a = true
    · simp [List.find?_cons, hp]
    · simp [List.find?_cons, hp, ih]

/-- Writing or erasing a header of another name leaves the header `key` as it was. -/
theorem rawHeader_setRawHeader_other (req : QNetworkRequest) (name key : HeaderText)
    (v : Option HeaderText) (hne : sameHeaderName name key = false) :
    (req.setRawHeader name v).rawHeader key = req.rawHeader key := by
  have hkeep : ∀ h : HeaderText × HeaderText,
      sameHeaderName h.1 key = true → (!sameHeaderName h.1 name) = true := by
    intro h hk
    cases hn : sameHeaderName h.1 name with
    | false => rfl
    | true =>
      have := sameHeaderName_trans h.1 name key hn hk
      rw [hne] at this
      cases this
  cases v with
  | none =>
    simp only [QNetworkRequest.setRawHeader, QNetworkRequest.rawHeader]
    rw [find_filter_keeps _ _ hkeep]
  | some val =>
    simp only [QNetworkRequest.setRawHeader, QNetworkRequest.rawHeader]
    rw [find_append_miss (fun h : HeaderText × HeaderText => sameHeaderName h.1 key) (name, val) hne,
      find_filter_keeps _ _ hkeep]

/-- A loop of `setRawHeader` calls over names other than `key` leaves `key` as it was. -/
theorem rawHeader_foldl_other (key : HeaderText) (f : HeaderText → Option HeaderText)
    (names : List HeaderText) :
    ∀ req : QNetworkRequest, (∀ n ∈ names, sameHeaderName n key = false) →
      (names.foldl (fun r head => r.setRawHeader head (f head)) req).rawHeader key
        = req.rawHeader key := by
  induction names with
  | nil => intro req _; rfl
  | cons n ns ih =>
    intro req h
    simp only [List.foldl_cons]
    rw [ih _ (fun m hm => h m (List.mem_cons_of_mem _ hm)),
      rawHeader_setRawHeader_other _ _ _ _ (h n (List.mem_cons_self _ _))]

theorem getDescriptor_contentType (url : QUrl) :
    (getDescriptor url).rawHeader "Content-Type" = some "application/json" := by
  rfl

theorem postDescriptor_contentType (url : QUrl) (extraHeads : QVariantMap)
    (h : ∀ kv ∈ extraHeads, sameHeaderName kv.2 "Content-Type" = false) :
    (postDescriptor url extraHeads).rawHeader "Content-Type" = some "application/json" := by
  unfold postDescriptor applyExtraHeads
  rw [rawHeader_foldl_other, getDescriptor_contentType]
  intro n hn
  obtain ⟨kv, hkv, rfl⟩ := List.mem_map.mp hn
  exact h kv hkv

theorem handedDescriptor_getRequest (s : requestHandler) (r : QNetworkReply) (url : QUrl)
    (hr : s.mReply = some r) (hrun : r.isRunning = false) :
    handedDescriptor (s.getRequest url) = some (getDescriptor url) := by
  simp [handedDescriptor, getRequest, hr, hrun, setStatus_mReply, QNetworkAccessManager.get,
    QNetworkAccessManager.start, getDescriptor]

theorem handedDescriptor_postRequest (s : requestHandler) (r : QNetworkReply) (url : QUrl)
    (body : QByteArray) (extraHeads : QVariantMap)
    (hr : s.mReply = some r) (hrun : r.isRunning = false) :
    handedDescriptor (s.postRequest url body extraHeads) = some (postDescriptor url extraHeads) := by
  simp [handedDescriptor, postRequest, hr, hrun, setStatus_mReply, QNetworkAccessManager.post,
    QNetworkAccessManager.start, postDescriptor, getDescriptor]

/-- C11 (as stated) fails: a mapping that holds the value "Content-Type" makes
the loop call `setRawHeader("Content-Type", extraHeads["Content-Type"])`; when
that key is absent the content type is erased, when it is present the content
type is replaced by the caller's value. -/
theorem C11_counterexample :
    handedContentType
        (idleAfterRequest.postRequest "https://api.example.com/login" [123, 125]
          [("X-Kind", "Content-Type")]) = some none ∧
      handedContentType
        (idleAfterRequest.postRequest "https://api.example.com/login" [123, 125]
          [("Content-Type", "Content-Type")]) = some (some "Content-Type") := by
  decide

/-- C11 (amended): an accepted `getRequest(url)` hands the transport a
descriptor with content type "application/json", for every url; an accepted
`postRequest(url, body, extraHeaders)` does so for every url, body and every
mapping in which neither a name nor a value is the content-type header name
(compared without regard to case). -/
theorem C11_content_type_default (s : requestHandler) (r : QNetworkReply) (url : QUrl)
    (body : QByteArray) (extraHeads : QVariantMap)
    (hr : s.mReply = some r) (hrun : r.isRunning = false)
    (hmap : ∀ kv ∈ extraHeads,
      sameHeaderName kv.1 "Content-Type" = false ∧ sameHeaderName kv.2 "Content-Type" = false) :
    handedContentType (s.getRequest url) = some (some "application/json") ∧
      handedContentType (s.postRequest url body extraHeads) = some (some "application/json") := by
  constructor
  · simp only [handedContentType, handedDescriptor_getRequest s r url hr hrun, Option.map_some',
      getDescriptor_contentType]
  · simp only [handedContentType, handedDescriptor_postRequest s r url body extraHeads hr hrun,
      Option.map_some', postDescriptor_contentType url extraHeads (fun kv hkv => (hmap kv hkv).2)]

/-- C11 (amended) at `idleAfterRequest` with the mapping `{"X-Auth": "tok"}`. -/
theorem C11_content_type_default_witness :
    idleAfterRequest.mReply = some
        { id := 0, operation := .GetOperation,
          request := getDescriptor "https://api.example.com/first",
          running := false, unread := [] } ∧
      (∀ kv ∈ ([("X-Auth", "tok")] : QVariantMap),
        sameHeaderName kv.1 "Content-Type" = false ∧ sameHeaderName kv.2 "Content-Type" = false) ∧
      handedContentType (idleAfterRequest.getRequest "https://api.example.com/data")
        = some (some "application/json") ∧
      handedContentType
        (idleAfterRequest.postRequest "https://api.example.com/login" [123, 125]
          [("X-Auth", "tok")]) = some (some "application/json") :=
  ⟨rfl, by decide,
   C11_content_type_default idleAfterRequest _ "https://api.example.com/data" [123, 125]
     [("X-Auth", "tok")] rfl rfl (by decide)⟩

/-! ## Status changes made by each operation -/

namespace requestHandler

theorem statusSeen_append (a b : List Emission) :
    statusSeen (a ++ b) = statusSeen a ++ statusSeen b := by
  simp [statusSeen]

theorem statusSeen_setStatus (s : requestHandler) (t : Status) :
    statusSeen (s.setStatus t).emitted = if s.mStatus = t then [] else [t] := by
  rw [setStatus_emitted]
  by_cases h : s.mStatus = t
  · simp [h, statusSeen]
  · by_cases h2 : s.mProcessing = (t == Status.Pending || t == Status.Processing)
    · simp [h, h2, statusSeen]
    · simp [h, h2, statusSeen]

/-- Status after `setStatus`, read off the changes it announced. -/
theorem setStatus_status_getLastD (s : requestHandler) (t : Status) :
    (s.setStatus t).state.mStatus = (statusSeen (s.setStatus t).emitted).getLastD s.mStatus := by
  rw [statusSeen_setStatus, setStatus_status]
  by_cases h : s.mStatus = t
  · simp [h]
  · simp [h]

theorem statusSeen_cons_aborted (s : requestHandler) (l : List Emission) :
    statusSeen (s.emit Signal.aborted :: l) = statusSeen l := by
  simp [statusSeen, List.filter_cons, emit]

theorem getRequest_idle_eq (s : requestHandler) (r : QNetworkReply) (url : QUrl)
    (hr : s.mReply = some r) (hrun : r.isRunning = false) :
    s.getRequest url = .ok ⟨true,
      (({ (({ s with mBuffer := [] } : requestHandler).setStatus Status.None).state with
          mReply := some ((({ s with mBuffer := [] } : requestHandler).setStatus
            Status.None).state.mNetworkManager.get (getDescriptor url)).1
          mNetworkManager := ((({ s with mBuffer := [] } : requestHandler).setStatus
            Status.None).state.mNetworkManager.get (getDescriptor url)).2 } :
        requestHandler).setStatus Status.Pending).state,
      (({ s with mBuffer := [] } : requestHandler).setStatus Status.None).emitted ++
      (({ (({ s with mBuffer := [] } : requestHandler).setStatus Status.None).state with
          mReply := some ((({ s with mBuffer := [] } : requestHandler).setStatus
            Status.None).state.mNetworkManager.get (getDescriptor url)).1
          mNetworkManager := ((({ s with mBuffer := [] } : requestHandler).setStatus
            Status.None).state.mNetworkManager.get (getDescriptor url)).2 } :
        requestHandler).setStatus Status.Pending).emitted⟩ := by
  simp only [getRequest, hr, hrun, getDescriptor]
  rfl

theorem postRequest_idle_eq (s : requestHandler) (r : QNetworkReply) (url : QUrl)
    (body : QByteArray) (extraHeads : QVariantMap)
    (hr : s.mReply = some r) (hrun : r.isRunning = false) :
    s.postRequest url body extraHeads = .ok ⟨true,
      (({ (({ s with mBuffer := [] } : requestHandler).setStatus Status.None).state with
          mReply := some ((({ s with mBuffer := [] } : requestHandler).setStatus
            Status.None).state.mNetworkManager.post (postDescriptor url extraHeads) body).1
          mNetworkManager := ((({ s with mBuffer := [] } : requestHandler).setStatus
            Status.None).state.mNetworkManager.post (postDescriptor url extraHeads) body).2 } :
        requestHandler).setStatus Status.Pending).state,
      (({ s with mBuffer := [] } : requestHandler).setStatus Status.None).emitted ++
      (({ (({ s with mBuffer := [] } : requestHandler).setStatus Status.None).state with
          mReply := some ((({ s with mBuffer := [] } : requestHandler).setStatus
            Status.None).state.mNetworkManager.post (postDescriptor url extraHeads) body).1
          mNetworkManager := ((({ s with mBuffer := [] } : requestHandler).setStatus
            Status.None).state.mNetworkManager.post (postDescriptor url extraHeads) body).2 } :
        requestHandler).setStatus Status.Pending).emitted⟩ := by
  simp only [postRequest, hr, hrun, postDescriptor, getDescriptor]
  rfl

end requestHandler

/-- C12 (as stated) fails: the slots set the status whatever it was.  After an
accepted `getRequest`, a transport error and the finish that follows it, then a
further data event, the status runs `Pending`, `Error`, `Completed`,
`Processing`; `onFinished` delivered in status `None` gives `Completed`; and
`onErrorOccurred` on a freshly constructed controller moves `None` to `Error`. -/
theorem C12_counterexample :
    (idleAfterRequest.observe
        [.getRequest "https://api.example.com/data", .onErrorOccurred 7, .onFinished,
         .onReadyRead]).map requestHandler.status
        = [Status.Pending, Status.Error, Status.Completed, Status.Processing] ∧
      idleReset.status = Status.None ∧
      (idleReset.observe [.onFinished]).map requestHandler.status = [Status.Completed] ∧
      (requestHandler.new.observe [.onErrorOccurred 7]).map requestHandler.status
        = [Status.Error] := by
  decide

/-- C12 (amended): for every controller state and every operation that returns,
the status changes it announces depend on the operation and on whether the
prior status already is the target, not on which state is left: an accepted
start goes to `Pending`, through `None` unless the status was `None`; a
rejected start changes nothing; `onReadyRead` goes to `Processing`,
`onFinished` to `Completed`, `onErrorOccurred` to `Error` and `resetStatus` to
`None`, each from any other status; `abort` goes to `None` from any other
status when the reply no longer runs, and when the reply still runs the cancel
runs `onErrorOccurred` and `onFinished` first, so that `abort` announces
`Error` (unless the status was `Error`), `Completed` and `None`; the status
afterwards is the last announced change, or the prior status when none was
announced. -/
theorem C12_status_changes_by_operation (s : requestHandler) (e : Event)
    (o : Outcome (Option Bool)) (h : s.step e = .ok o) :
    statusSeen o.emitted =
        (match e with
          | .getRequest _ | .postRequest _ _ _ =>
            if o.ret = some true then
              (if s.status = Status.None then [Status.Pending]
               else [Status.None, Status.Pending])
            else []
          | .onReadyRead => if s.status = Status.Processing then [] else [Status.Processing]
          | .onFinished => if s.status = Status.Completed then [] else [Status.Completed]
          | .onErrorOccurred _ => if s.status = Status.Error then [] else [Status.Error]
          | .abort =>
            if s.hasRunningReply = true then
              (if s.status = Status.Error then [] else [Status.Error]) ++
                [Status.Completed, Status.None]
            else (if s.status = Status.None then [] else [Status.None])
          | .resetStatus => if s.status = Status.None then [] else [Status.None]
          | .transportData _ | .transportDone => []) ∧
      o.state.status = (statusSeen o.emitted).getLastD s.status := by
  cases e with
  | getRequest url =>
    cases hr : s.mReply with
    | none => simp [step, getRequest, hr] at h
    | some r =>
      cases hrun : r.isRunning with
      | true =>
        simp [step, getRequest, hr, hrun] at h
        subst h
        simp [Outcome.withRet, statusSeen]
      | false =>
        simp only [step, getRequest_idle_eq s r url hr hrun, Except.ok.injEq] at h
        subst h
        simp only [Outcome.withRet, statusSeen_append, statusSeen_setStatus, status,
          setStatus_status]
        by_cases hs : s.mStatus = Status.None <;> simp [hs]
  | postRequest url body extraHeads =>
    cases hr : s.mReply with
    | none => simp [step, postRequest, hr] at h
    | some r =>
      cases hrun : r.isRunning with
      | true =>
        simp [step, postRequest, hr, hrun] at h
        subst h
        simp [Outcome.withRet, statusSeen]
      | false =>
        simp only [step, postRequest_idle_eq s r url body extraHeads hr hrun,
          Except.ok.injEq] at h
        subst h
        simp only [Outcome.withRet, statusSeen_append, statusSeen_setStatus, status,
          setStatus_status]
        by_cases hs : s.mStatus = Status.None <;> simp [hs]
  | onReadyRead =>
    cases hr : s.mReply with
    | none => simp [step, onReadyRead, hr] at h
    | some r =>
      simp only [step, onReadyRead, hr, Except.ok.injEq] at h
      subst h
      simp only [Outcome.withRet, statusSeen_setStatus, status, setStatus_status]
      by_cases hs : s.mStatus = Status.Processing <;> simp [hs]
  | onFinished =>
    cases hr : s.mReply with
    | none => simp [step, onFinished, hr] at h
    | some r =>
      simp only [step, onFinished, hr, Except.ok.injEq] at h
      subst h
      simp only [Outcome.withRet, statusSeen_append, statusSeen_setStatus, status,
        setStatus_status]
      by_cases hs : s.mStatus = Status.Completed <;> simp [hs, statusSeen, emit]
  | onErrorOccurred error =>
    simp only [step, onErrorOccurred, Except.ok.injEq] at h
    subst h
    simp only [Outcome.withRet, statusSeen_append, statusSeen_setStatus, status,
      setStatus_status]
    by_cases hs : s.mStatus = Status.Error <;> simp [hs, statusSeen, emit]
  | abort =>
    cases hr : s.mReply with
    | none => simp [step, abort, hr] at h
    | some r =>
      cases hrun : r.isRunning with
      | true =>
        simp only [step, abort_running s r hr hrun, Except.ok.injEq] at h
        subst h
        obtain ⟨mgr, rep, buf, p, st⟩ := s
        simp only at hr
        subst hr
        simp only [hasRunningReply, hrun, if_true, Outcome.withRet]
        cases st <;> cases p <;> exact ⟨rfl, rfl⟩
      | false =>
        simp only [step, abort_stopped s r hr hrun, Except.ok.injEq] at h
        subst h
        obtain ⟨mgr, rep, buf, p, st⟩ := s
        simp only at hr
        subst hr
        simp only [hasRunningReply, hrun, Outcome.withRet]
        cases st <;> cases p <;> exact ⟨rfl, rfl⟩
  | resetStatus =>
    simp only [step, resetStatus, Except.ok.injEq] at h
    subst h
    simp only [Outcome.withRet, statusSeen_setStatus, status, setStatus_status]
    by_cases hs : s.mStatus = Status.None <;> simp [hs]
  | transportData bytes =>
    simp only [step, Except.ok.injEq] at h
    subst h
    simp [statusSeen, status, transportData]
  | transportDone =>
    simp only [step, Except.ok.injEq] at h
    subst h
    simp [statusSeen, status, transportDone]

/-- C12 (amended) at `onFinished` delivered in status `None`: one change, to `Completed`. -/
theorem C12_status_changes_by_operation_witness :
    idleReset.step .onFinished = .ok finishedFromReset ∧
      statusSeen finishedFromReset.emitted
        = (if idleReset.status = Status.Completed then [] else [Status.Completed]) ∧
      finishedFromReset.state.status
        = (statusSeen finishedFromReset.emitted).getLastD idleReset.status :=
  ⟨rfl, C12_status_changes_by_operation idleReset .onFinished finishedFromReset rfl⟩

/-- C13 (as stated) fails: `onReadyRead` in status `Completed` (and in status
`Error`, here reached by `onErrorOccurred`) sets the status to `Processing`. -/
theorem C13_counterexample :
    idleAfterRequest.status = Status.Completed ∧
      idleAfterRequest.onReadyRead.toOption.map (fun o => (o.state.status, signals o))
        = some (Status.Processing, [Signal.statusChanged, Signal.processingChanged]) ∧
      (idleAfterRequest.onErrorOccurred 7).state.status = Status.Error ∧
      (idleAfterRequest.onErrorOccurred 7).state.onReadyRead.toOption.map
          (fun o => o.state.status) = some Status.Processing := by
  decide

/-- C13 (amended): in every state with an existing reply handle, `onReadyRead`
returns, appends the bytes currently readable on the reply to the buffer and
leaves status `Processing`, whatever the prior status was (also `Completed`,
`Error` and `None`); when the status already is `Processing` it emits nothing,
otherwise it emits `statusChanged`, and `processingChanged` when the busy flag
was clear. -/
theorem C13_onReadyRead_sets_processing (s : requestHandler) (r : QNetworkReply)
    (hr : s.mReply = some r) :
    ∃ o, s.onReadyRead = .ok o ∧ o.state.mBuffer = s.mBuffer ++ r.unread ∧
      o.state.status = Status.Processing ∧
      signals o =
        (if s.status = Status.Processing then []
         else Signal.statusChanged ::
           (if s.processing = true then [] else [Signal.processingChanged])) := by
  refine ⟨_, by simp only [onReadyRead, hr]; rfl, ?_, ?_, ?_⟩
  · simp only [setStatus_mBuffer, QNetworkReply.readAll]
  · simp only [status, setStatus_status]
  · simp only [signals, setStatus_emitted, status, processing]
    by_cases h : s.mStatus = Status.Processing
    · simp [h]
    · rw [if_neg h, if_neg h]
      rcases Bool.eq_false_or_eq_true s.mProcessing with hp | hp <;> simp [hp]

/-- C13 (amended) at `idleAfterRequest`, whose status is `Completed`. -/
theorem C13_onReadyRead_sets_processing_witness :
    idleAfterRequest.mReply = some
        { id := 0, operation := .GetOperation,
          request := getDescriptor "https://api.example.com/first",
          running := false, unread := [] } ∧
      ∃ o, idleAfterRequest.onReadyRead = .ok o ∧
        o.state.mBuffer = idleAfterRequest.mBuffer ++ [] ∧
        o.state.status = Status.Processing ∧
        signals o =
          (if idleAfterRequest.status = Status.Processing then []
           else Signal.statusChanged ::
             (if idleAfterRequest.processing = true then [] else [Signal.processingChanged])) :=
  ⟨rfl, C13_onReadyRead_sets_processing idleAfterRequest _ rfl⟩

namespace requestHandler

theorem setStatus_processing (s : requestHandler) (t : Status) :
    (s.setStatus t).state.mProcessing = if s.mStatus = t then s.mProcessing else t.isBusy := by
  by_cases h : s.mStatus = t
  · rw [setStatus_of_eq s t h]
    simp [h]
  · rw [setStatus_processing_of_ne s t h]
    simp [h, Status.isBusy]

end requestHandler

/-- C14: in every state and for every url, body and extraHeaders,
`postRequest(url, body, extraHeaders)` and `getRequest(url)` have the same
effect on the controller: both fault on a never-assigned reply, or both return
the same value with the same status, busy flag, buffer and the same
notifications read the same way; on the transport side they leave the same
transport and a reply of the same identity, running flag and unread bytes, so
that they differ in the descriptor and verb only. -/
theorem C14_post_and_get_same_effect (s : requestHandler) (url : QUrl) (body : QByteArray)
    (extraHeads : QVariantMap) :
    controllerEffect (s.postRequest url body extraHeads) = controllerEffect (s.getRequest url) ∧
      transportEffect (s.postRequest url body extraHeads) = transportEffect (s.getRequest url) := by
  cases hr : s.mReply with
  | none => simp [getRequest, postRequest, hr, controllerEffect, transportEffect]
  | some r =>
    cases hrun : r.isRunning with
    | true => simp [getRequest, postRequest, hr, hrun, controllerEffect, transportEffect]
    | false =>
      rw [getRequest_idle_eq s r url hr hrun, postRequest_idle_eq s r url body extraHeads hr hrun]
      constructor
      · simp only [controllerEffect, status, processing, setStatus_status,
          setStatus_processing, setStatus_mBuffer, setStatus_emitted]
      · simp only [transportEffect, setStatus_mReply, setStatus_mNetworkManager,
          QNetworkAccessManager.get, QNetworkAccessManager.post, QNetworkAccessManager.start,
          Option.map_some']

/-- C15: for every old status and every new status `t`, `setStatus(t)` in a
state whose busy flag agrees with its status emits `processingChanged` exactly
once when exactly one of the two statuses lies in `Pending`, `Processing`, and
not at all otherwise; afterwards the busy flag is the one computed from `t`. -/
theorem C15_processingChanged_on_busy_transitions (s : requestHandler) (t : Status)
    (h : busyMatchesStatus s) :
    (signals (s.setStatus t)).count Signal.processingChanged
        = (if s.status.isBusy = t.isBusy then 0 else 1) ∧
      (s.setStatus t).state.processing = t.isBusy ∧
      ((s.setStatus t).state.processing = true ↔ (t = Status.Pending ∨ t = Status.Processing)) := by
  rw [busyMatchesStatus_iff] at h
  have h2 : (s.setStatus t).state.processing = t.isBusy := by
    simp only [processing, setStatus_processing]
    by_cases hs : s.mStatus = t
    · simp only [hs, if_true]
      rw [h, hs]
      rfl
    · simp only [hs, if_false]
  refine ⟨?_, h2, ?_⟩
  · obtain ⟨mgr, rep, buf, p, st⟩ := s
    simp only at h
    subst h
    cases st <;> cases t <;> rfl
  · rw [h2]
    cases t <;> simp [Status.isBusy]

/-- C15 at the transition from `Pending` to `None`: one `processingChanged`, flag cleared. -/
theorem C15_processingChanged_on_busy_transitions_witness :
    busyMatchesStatus pendingRequest ∧
      (signals (pendingRequest.setStatus Status.None)).count Signal.processingChanged
        = (if pendingRequest.status.isBusy = Status.None.isBusy then 0 else 1) ∧
      (pendingRequest.setStatus Status.None).state.processing = Status.None.isBusy ∧
      ((pendingRequest.setStatus Status.None).state.processing = true ↔
        (Status.None = Status.Pending ∨ Status.None = Status.Processing)) :=
  ⟨by decide,
   C15_processingChanged_on_busy_transitions pendingRequest Status.None (by decide)⟩

namespace requestHandler

theorem observeCalls_dataEvents (chunks : List QByteArray) :
    ∀ (s : requestHandler) (r : QNetworkReply), s.mReply = some r →
      (s.observeCalls (dataEvents chunks ++ [.onFinished])).map status
        = List.replicate chunks.length Status.Processing ++ [Status.Completed] := by
  induction chunks with
  | nil =>
    intro s r hr
    simp [dataEvents, observeCalls, step, onFinished, hr, Outcome.withRet, Event.isCall, status,
      setStatus_status]
  | cons c cs ih =>
    intro s r hr
    have hstep1 : s.step (.transportData c) = .ok ⟨none, transportData s c, []⟩ := rfl
    have hr1 : (transportData s c).mReply = some { r with unread := r.unread ++ c } := by
      simp [transportData, hr]
    have hstep2 : (transportData s c).step .onReadyRead
        = .ok (Outcome.withRet
            (({ transportData s c with
                mBuffer := (transportData s c).mBuffer ++ (r.unread ++ c)
                mReply := some { r with unread := [] } } : requestHandler).setStatus
              Status.Processing) none) := by
      simp only [step, onReadyRead, hr1, QNetworkReply.readAll]
    have hr2 : (({ transportData s c with
                mBuffer := (transportData s c).mBuffer ++ (r.unread ++ c)
                mReply := some { r with unread := [] } } : requestHandler).setStatus
              Status.Processing).state.mReply = some { r with unread := [] } := by
      rw [setStatus_mReply]
    have hrest := ih _ _ hr2
    simp only [dataEvents, List.cons_append, observeCalls, hstep1, hstep2, Event.isCall,
      List.map_cons, Outcome.withRet, List.length_cons, List.replicate_succ]
    simp only [dataEvents, Outcome.withRet] at hrest
    simp [hrest, status, setStatus_status]

/-- An accepted `getRequest` returns true in status `Pending` with a reply assigned. -/
theorem getRequest_accepted (s : requestHandler) (r : QNetworkReply) (url : QUrl)
    (hr : s.mReply = some r) (hrun : r.isRunning = false) :
    ∃ o, s.getRequest url = .ok o ∧ o.ret = true ∧ o.state.mStatus = Status.Pending ∧
      ∃ r', o.state.mReply = some r' := by
  refine ⟨_, getRequest_idle_eq s r url hr hrun, rfl, ?_, ?_⟩
  · simp only [setStatus_status]
  · rw [setStatus_mReply]
    exact ⟨_, rfl⟩

end requestHandler

/-- C16: wherever the reply handle exists and reports not running (in
particular in status `None`), an accepted `getRequest` followed by N data events
and one `onFinished` returns at every step, and the status read after each call
is `Pending`, then `Processing` after each of the N data events, then
`Completed`; this holds for every N, in particular every N of at least 1. -/
theorem C16_status_sequence (s : requestHandler) (r : QNetworkReply) (url : QUrl)
    (chunks : List QByteArray) (hr : s.mReply = some r) (hrun : r.isRunning = false) :
    (s.observeCalls (.getRequest url :: dataEvents chunks ++ [.onFinished])).map
        requestHandler.status
      = Status.Pending :: List.replicate chunks.length Status.Processing ++ [Status.Completed] := by
  obtain ⟨o, ho, _, hst, r', hr'⟩ := getRequest_accepted s r url hr hrun
  have hstep : s.step (.getRequest url) = .ok (o.withRet (some o.ret)) := by
    simp only [step, ho]
  have hrest := observeCalls_dataEvents chunks o.state r' hr'
  simp only [List.cons_append, observeCalls, hstep, Event.isCall, Outcome.withRet, if_true,
    List.map_cons, status, hst]
  exact congrArg (List.cons Status.Pending) hrest

/-- C16 at N = 2, chunks of 5 and 7 bytes, starting in status `None`. -/
theorem C16_status_sequence_witness :
    idleReset.status = Status.None ∧
      idleReset.mReply = some
        { id := 0, operation := .GetOperation,
          request := getDescriptor "https://api.example.com/first",
          running := false, unread := [] } ∧
      (idleReset.observeCalls
          (.getRequest "https://api.example.com/data" ::
            dataEvents [[104, 101, 108, 108, 111], [44, 32, 119, 111, 114, 108, 100]]
            ++ [.onFinished])).map requestHandler.status
        = Status.Pending ::
            List.replicate
              ([[104, 101, 108, 108, 111], [44, 32, 119, 111, 114, 108, 100]] :
                List QByteArray).length Status.Processing
            ++ [Status.Completed] ∧
      Status.Pending ::
          List.replicate
            ([[104, 101, 108, 108, 111], [44, 32, 119, 111, 114, 108, 100]] :
              List QByteArray).length Status.Processing
          ++ [Status.Completed]
        = [Status.Pending, Status.Processing, Status.Processing, Status.Completed] :=
  ⟨rfl, rfl,
   C16_status_sequence idleReset _ "https://api.example.com/data"
     [[104, 101, 108, 108, 111], [44, 32, 119, 111, 114, 108, 100]] rfl rfl,
   rfl⟩

/-- C17: for every controller state and every operation that returns,
`onReadyRead` and `onFinished` leave a buffer that extends the previous one at
its end (by the bytes read from the reply); `onErrorOccurred`, `abort`,
`resetStatus`, a rejected `getRequest`/`postRequest` and the transport-side
changes leave the buffer exactly as it was; an accepted `getRequest` or
`postRequest` leaves it empty. -/
theorem C17_buffer_append_only (s : requestHandler) (e : Event) (o : Outcome (Option Bool))
    (h : s.step e = .ok o) :
    match e with
    | .onReadyRead | .onFinished =>
      ∃ r, s.mReply = some r ∧ o.state.mBuffer = s.mBuffer ++ r.unread
    | .getRequest _ | .postRequest _ _ _ =>
      (o.ret = some false ∧ o.state.mBuffer = s.mBuffer) ∨
        (o.ret = some true ∧ o.state.mBuffer = [])
    | .onErrorOccurred _ | .abort | .resetStatus | .transportData _ | .transportDone =>
      o.state.mBuffer = s.mBuffer := by
  cases e with
  | getRequest url =>
    cases hr : s.mReply with
    | none => simp [step, getRequest, hr] at h
    | some r =>
      cases hrun : r.isRunning with
      | true =>
        simp [step, getRequest, hr, hrun] at h
        subst h
        simp [Outcome.withRet]
      | false =>
        simp only [step, getRequest_idle_eq s r url hr hrun, Except.ok.injEq] at h
        subst h
        simp [Outcome.withRet, setStatus_mBuffer]
  | postRequest url body extraHeads =>
    cases hr : s.mReply with
    | none => simp [step, postRequest, hr] at h
    | some r =>
      cases hrun : r.isRunning with
      | true =>
        simp [step, postRequest, hr, hrun] at h
        subst h
        simp [Outcome.withRet]
      | false =>
        simp only [step, postRequest_idle_eq s r url body extraHeads hr hrun,
          Except.ok.injEq] at h
        subst h
        simp [Outcome.withRet, setStatus_mBuffer]
  | onReadyRead =>
    cases hr : s.mReply with
    | none => simp [step, onReadyRead, hr] at h
    | some r =>
      simp only [step, onReadyRead, hr, Except.ok.injEq] at h
      subst h
      simp [Outcome.withRet, setStatus_mBuffer, QNetworkReply.readAll]
  | onFinished =>
    cases hr : s.mReply with
    | none => simp [step, onFinished, hr] at h
    | some r =>
      simp only [step, onFinished, hr, Except.ok.injEq] at h
      subst h
      simp [Outcome.withRet, setStatus_mBuffer, QNetworkReply.readAll]
  | onErrorOccurred error =>
    simp only [step, onErrorOccurred, Except.ok.injEq] at h
    subst h
    simp [Outcome.withRet, setStatus_mBuffer]
  | abort =>
    cases hr : s.mReply with
    | none => simp [step, abort, hr] at h
    | some r =>
      cases hrun : r.isRunning with
      | true =>
        simp only [step, abort_running s r hr hrun, Except.ok.injEq] at h
        subst h
        simp [Outcome.withRet, setStatus_mBuffer]
      | false =>
        simp only [step, abort_stopped s r hr hrun, Except.ok.injEq] at h
        subst h
        simp [Outcome.withRet, setStatus_mBuffer]
  | resetStatus =>
    simp only [step, resetStatus, Except.ok.injEq] at h
    subst h
    simp [Outcome.withRet, setStatus_mBuffer]
  | transportData bytes =>
    simp only [step, Except.ok.injEq] at h
    subst h
    simp [transportData]
  | transportDone =>
    simp only [step, Except.ok.injEq] at h
    subst h
    simp [transportDone]

/-- C17 at `onReadyRead` with five readable bytes: the buffer grows by them. -/
theorem C17_buffer_append_only_witness :
    dataWaiting.step .onReadyRead = .ok dataRead ∧
      ∃ r, dataWaiting.mReply = some r ∧
        dataRead.state.mBuffer = dataWaiting.mBuffer ++ r.unread :=
  ⟨rfl, C17_buffer_append_only dataWaiting .onReadyRead dataRead rfl⟩

/-- C18: in every state with an existing reply handle, the value `getRequest`
and `postRequest` return is the negation of the reply's running flag, so they
return false exactly when the reply reports running, whatever the status.  In
`resetWhileRunning`, reached from `idleAfterRequest` by an accepted `getRequest`
and `resetStatus()`, the status is `None` and the busy flag is clear, yet
`getRequest` returns false. -/
theorem C18_acceptance_decided_by_running (s : requestHandler) (r : QNetworkReply) (url : QUrl)
    (body : QByteArray) (extraHeads : QVariantMap) (hr : s.mReply = some r) :
    (s.getRequest url).toOption.map Outcome.ret = some (!r.isRunning) ∧
      (s.postRequest url body extraHeads).toOption.map Outcome.ret = some (!r.isRunning) ∧
      ((s.getRequest url).toOption.map Outcome.ret = some false ↔ r.isRunning = true) ∧
      ((s.postRequest url body extraHeads).toOption.map Outcome.ret = some false ↔
        r.isRunning = true) ∧
      (idleAfterRequest.run
          [.getRequest "https://api.example.com/data", .resetStatus]).toOption.map Prod.fst
        = some resetWhileRunning ∧
      resetWhileRunning.status = Status.None ∧
      resetWhileRunning.processing = false ∧
      (resetWhileRunning.getRequest "https://api.example.com/next").toOption.map Outcome.ret
        = some false := by
  have hg : (s.getRequest url).toOption.map Outcome.ret = some (!r.isRunning) := by
    cases hrun : r.isRunning with
    | true => simp [getRequest, hr, hrun, Except.toOption]
    | false => simp [getRequest_idle_eq s r url hr hrun, Except.toOption]
  have hp : (s.postRequest url body extraHeads).toOption.map Outcome.ret
      = some (!r.isRunning) := by
    cases hrun : r.isRunning with
    | true => simp [postRequest, hr, hrun, Except.toOption]
    | false => simp [postRequest_idle_eq s r url body extraHeads hr hrun, Except.toOption]
  refine ⟨hg, hp, ?_, ?_, by decide, rfl, rfl, by decide⟩
  · rw [hg]
    cases r.isRunning <;> simp
  · rw [hp]
    cases r.isRunning <;> simp

/-- C18 at `resetWhileRunning`: status `None`, busy flag clear, reply running, start rejected. -/
theorem C18_acceptance_decided_by_running_witness :
    resetWhileRunning.mReply = some
        { id := 1, operation := .GetOperation,
          request := { url := "https://api.example.com/data", transferTimeout := 3000,
                       rawHeaders := [("Content-Type", "application/json")] },
          running := true, unread := [] } ∧
      resetWhileRunning.status = Status.None ∧
      resetWhileRunning.processing = false ∧
      (resetWhileRunning.getRequest "https://api.example.com/next").toOption.map Outcome.ret
        = some false ∧
      (resetWhileRunning.postRequest "https://api.example.com/next" [123, 125]
          [("X-Auth", "tok")]).toOption.map Outcome.ret = some false :=
  ⟨rfl, rfl, rfl,
   (C18_acceptance_decided_by_running resetWhileRunning _ "https://api.example.com/next"
      [123, 125] [("X-Auth", "tok")] rfl).1,
   (C18_acceptance_decided_by_running resetWhileRunning _ "https://api.example.com/next"
      [123, 125] [("X-Auth", "tok")] rfl).2.1⟩

/-- C19 (as stated) fails in its `abort` part: in `pendingRequest` (status
`Pending`, busy flag set, reply running) the first notification of `abort()` is
the `statusChanged` of the nested `onErrorOccurred`, and the observer of
`aborted` reads status `Completed` with the busy flag false, not the prior
status. -/
theorem C19_counterexample :
    pendingRequest.status = Status.Pending ∧ pendingRequest.processing = true ∧
      pendingRequest.abort.toOption.map
          (fun o => (o.emitted.head?, o.emitted.filter (fun e => isAborted e.signal)))
        = some (some ⟨Signal.statusChanged, Status.Error, true⟩,
            [⟨Signal.aborted, Status.Completed, false⟩]) := by
  decide

/-- C19 (amended): `setStatus` emits `statusChanged` after the status is written
and before the busy flag is recomputed: on the transition from `None` to
`Pending` the observer of `statusChanged` reads status `Pending` with the busy
flag false, on the transition from `Processing` to `Completed` it reads
`Completed` with the busy flag true, and in general it reads the new status with
the old flag.  `abort` emits `aborted` before its `setStatus(Status::None)`:
when the reply no longer runs `aborted` is the first notification and its
observer reads the prior status and flag; when the reply still runs the nested
`onErrorOccurred` and `onFinished` have run by then, and the observer of
`aborted` reads `Completed` with the busy flag false. -/
theorem C19_notifications_precede_update (s : requestHandler) (r : QNetworkReply) (t : Status) :
    (({ s with mStatus := Status.None, mProcessing := false } : requestHandler).setStatus
        Status.Pending).emitted
      = [⟨Signal.statusChanged, Status.Pending, false⟩,
         ⟨Signal.processingChanged, Status.Pending, true⟩] ∧
    (({ s with mStatus := Status.Processing, mProcessing := true } : requestHandler).setStatus
        Status.Completed).emitted
      = [⟨Signal.statusChanged, Status.Completed, true⟩,
         ⟨Signal.processingChanged, Status.Completed, false⟩] ∧
    (s.setStatus t).emitted.head?
      = (if s.status = t then none else some ⟨Signal.statusChanged, t, s.processing⟩) ∧
    (({ s with mReply := some r } : requestHandler).abort).toOption.map
        (fun o => o.emitted.filter (fun e => isAborted e.signal))
      = some [if r.isRunning = true then ⟨Signal.aborted, Status.Completed, false⟩
              else ⟨Signal.aborted, s.status, s.processing⟩] ∧
    (({ s with mReply := some r } : requestHandler).abort).toOption.map
        (fun o => o.emitted.dropWhile (fun e => !isAborted e.signal))
      = some (if r.isRunning = true then
                [⟨Signal.aborted, Status.Completed, false⟩,
                 ⟨Signal.statusChanged, Status.None, false⟩]
              else ⟨Signal.aborted, s.status, s.processing⟩ :: (s.setStatus Status.None).emitted)
    := by
  refine ⟨rfl, rfl, ?_, ?_, ?_⟩
  · rw [setStatus_emitted]
    by_cases h : s.mStatus = t
    · simp [h, status]
    · simp [h, status, processing]
  · obtain ⟨mgr, rep, buf, p, st⟩ := s
    cases hrun : r.isRunning with
    | true =>
      rw [abort_running _ r rfl hrun]
      cases st <;> cases p <;> rfl
    | false =>
      rw [abort_stopped _ r rfl hrun]
      cases st <;> cases p <;> rfl
  · obtain ⟨mgr, rep, buf, p, st⟩ := s
    cases hrun : r.isRunning with
    | true =>
      rw [abort_running _ r rfl hrun]
      cases st <;> cases p <;> rfl
    | false =>
      rw [abort_stopped _ r rfl hrun]
      cases st <;> cases p <;> rfl

/-- C20: `setStatus(t)` emits exactly one `statusChanged` when `t` differs from
the current status and none when it equals it; with the current status as
argument it emits nothing and changes nothing; a second `setStatus(t)` right
after the first emits nothing and leaves the state of the first. -/
theorem C20_setStatus_idempotent (s : requestHandler) (t : Status) :
    (signals (s.setStatus t)).count Signal.statusChanged = (if s.status = t then 0 else 1) ∧
      s.setStatus s.status = ⟨(), s, []⟩ ∧
      (s.setStatus t).state.setStatus t = ⟨(), (s.setStatus t).state, []⟩ ∧
      ((s.setStatus t).state.setStatus t).state = (s.setStatus t).state := by
  refine ⟨?_, setStatus_of_eq s _ rfl, setStatus_of_eq _ _ (setStatus_status s t), ?_⟩
  · simp only [signals, setStatus_emitted, status]
    by_cases h : s.mStatus = t
    · simp [h]
    · rw [if_neg h, if_neg h]
      by_cases h2 : s.mProcessing = (t == Status.Pending || t == Status.Processing)
      · simp [h2]
      · simp [h2]
  · rw [setStatus_of_eq _ _ (setStatus_status s t)]

end cardian.network
